import Mathlib

/-!
Verification of the briefing generator (src/generator/generate_briefing.py).

The Python source is shallowly embedded below.  Python strings are `String`,
Python floats are `ℚ`, Python dicts with a fixed key set are structures whose
fields are `Option`-valued when the source accesses them through
`dict.get(key, default)`, and Python association dicts (keyed by ticker or
coin symbol) are association lists `List (String × _)` in insertion order.
The wall clock (`datetime.now()`) is modelled as an explicit `date` argument,
and the external text-to-speech subprocess as a boolean-valued oracle.
-/

set_option maxRecDepth 20000

/-- Model of Python `str.lower()` (the source only lowercases ASCII text). -/
def pyLower (s : String) : String := ⟨s.data.map Char.toLower⟩

/-- Model of the Python slice `s[:n]` on a string. -/
def pySlice (n : Nat) (s : String) : String := ⟨s.data.take n⟩

/-- Model of the Python substring test `p in s`. -/
def pyIn (p s : String) : Bool := decide (p.data <:+: s.data)

/-- `SContains s pat` states that `pat` occurs as a substring of `s`
(the propositional counterpart of Python `pat in s`). -/
def SContains (s pat : String) : Prop := pat.data <:+: s.data

instance (s pat : String) : Decidable (SContains s pat) :=
  inferInstanceAs (Decidable (pat.data <:+: s.data))

/-- Characters removed by Python `str.strip()` (default whitespace). -/
def pyWS (c : Char) : Bool := c.isWhitespace

/-- List-level core of Python `str.strip()`: drop whitespace on the left,
then on the right. -/
def stripL (l : List Char) : List Char :=
  ((l.dropWhile pyWS).reverse.dropWhile pyWS).reverse

/-- Model of Python `str.strip()`. -/
def pyStrip (s : String) : String := ⟨stripL s.data⟩

/-- Model of Python `sum(...)` over a list of floats. -/
def listSumQ (l : List ℚ) : ℚ := l.foldl (· + ·) 0

/-- Model of the Python format `f"{x:.0f}"`: round to the nearest integer and
print it.  (Python rounds ties to even; this model rounds ties up.  No value
in this development sits on a tie, and no claim depends on tie behaviour.) -/
def pyFmt0 (q : ℚ) : String := toString (Int.fdiv (2 * q.num + (q.den : ℤ)) (2 * (q.den : ℤ)))

/- ### Generic lemmas about the string model -/

theorem stripL_eq_self (l : List Char) (c d : Char) (h1 : l.head? = some c)
    (hc : pyWS c = false) (h2 : l.getLast? = some d) (hd : pyWS d = false) :
    stripL l = l := by
  unfold stripL
  have hdrop : l.dropWhile pyWS = l := by
    cases l with
    | nil => simp at h1
    | cons x t =>
      have hx : x = c := by simpa using h1
      subst hx
      simp [List.dropWhile_cons, hc]
  rw [hdrop]
  have hrev : l.reverse.head? = some d := by
    rw [List.head?_reverse]; exact h2
  have hdrop2 : l.reverse.dropWhile pyWS = l.reverse := by
    cases hrl : l.reverse with
    | nil => simp
    | cons x t =>
      have hx : x = d := by
        rw [hrl] at hrev; simpa using hrev
      subst hx
      simp [List.dropWhile_cons, hd]
  rw [hdrop2, List.reverse_reverse]

theorem pyStrip_eq_self (s : String) (c d : Char) (h1 : s.data.head? = some c)
    (hc : pyWS c = false) (h2 : s.data.getLast? = some d) (hd : pyWS d = false) :
    pyStrip s = s := by
  apply String.ext
  show stripL s.data = s.data
  exact stripL_eq_self s.data c d h1 hc h2 hd

theorem join_data_head? (a : String) (t : List String) (c : Char)
    (h : a.data.head? = some c) : (String.join (a :: t)).data.head? = some c := by
  rw [String.data_join]
  cases ha : a.data with
  | nil => rw [ha] at h; simp at h
  | cons x u =>
    rw [ha] at h
    simp only [List.map_cons, List.flatten_cons, ha]
    simpa using h

theorem join_data_getLast? (l : List String) (z : String) (d : Char)
    (h : z.data.getLast? = some d) (hz : z.data ≠ []) :
    (String.join (l ++ [z])).data.getLast? = some d := by
  rw [String.data_join, List.map_append, List.flatten_append]
  simp only [List.map_cons, List.map_nil, List.flatten_cons, List.flatten_nil,
    List.append_nil]
  rw [List.getLast?_append_of_ne_nil _ hz]
  exact h

theorem scontains_join_of_mem {l : List String} {s pat : String}
    (hm : s ∈ l) (h : SContains s pat) : SContains (String.join l) pat := by
  unfold SContains at h ⊢
  rw [String.data_join]
  induction l with
  | nil => cases hm
  | cons a t ih =>
    simp only [List.map_cons, List.flatten_cons]
    rcases List.mem_cons.mp hm with rfl | hm'
    · exact h.trans (List.prefix_append _ _).isInfix
    · exact (ih hm').trans (List.suffix_append _ _).isInfix

theorem scontains_append_left (pat rest : String) :
    SContains (pat ++ rest) pat := by
  unfold SContains
  refine ⟨[], rest.data, ?_⟩
  simp [String.data_append]

theorem scontains_append_of_left {a : String} (b pat : String)
    (h : SContains a pat) : SContains (a ++ b) pat := by
  unfold SContains at h ⊢
  rw [String.data_append]
  exact h.trans (List.prefix_append _ _).isInfix

theorem scontains_append_both (pre pat rest : String) :
    SContains (pre ++ pat ++ rest) pat := by
  unfold SContains
  refine ⟨pre.data, rest.data, ?_⟩
  simp [String.data_append]

theorem scontains_of_eq {s pat : String} (h : s = pat) : SContains s pat := by
  subst h
  exact ⟨[], [], by simp⟩

/- ### News items and the ranking pipeline (fetch_middle_east_news) -/

/-- A fetched news article as assembled in `fetch_middle_east_news`
(lines 170-175 of the source). -/
structure NewsItem where
  title : String
  description : String
  source : String
  relevance : Nat
deriving DecidableEq

/-- The keyword list `priority_keywords` (source lines 143-148). -/
def priority_keywords : List String :=
  ["israel", "gaza", "hamas", "hezbollah", "iran", "lebanon",
   "yemen", "houthi", "red sea", "syria", "iraq", "saudi",
   "qatar", "uae", "gulf", "palestinian", "netanyahu", "tehran",
   "strike", "missile", "attack", "tension", "conflict", "war"]

/-- Relevance scoring (source lines 167-168): the number of priority keywords
occurring case-insensitively in title plus description. -/
def relevanceScore (title desc : String) : Nat :=
  priority_keywords.countP (fun kw => pyIn kw (pyLower (title ++ " " ++ desc)))

/-- Building one article record with its score (source lines 163-175). -/
def collectNewsItem (title desc source : String) : NewsItem :=
  ⟨title, desc, source, relevanceScore title desc⟩

/-- The deduplication key (source line 186): lowercased 50-character prefix
of the headline. -/
def newsTitleKey (a : NewsItem) : String := pyLower (pySlice 50 a.title)

/-- Stable descending sort by relevance (source line 180,
`articles.sort(key=lambda x: x[\x27relevance\x27], reverse=True)`). -/
def newsSorted (l : List NewsItem) : List NewsItem :=
  List.insertionSort (fun a b => b.relevance ≤ a.relevance) l

/-- Deduplication by headline prefix with a `seen` set
(source lines 183-189). -/
def newsDedup : List NewsItem → List String → List NewsItem
  | [], _ => []
  | a :: rest, seen =>
    if newsTitleKey a ∈ seen then newsDedup rest seen
    else a :: newsDedup rest (newsTitleKey a :: seen)

/-- The pure core of `fetch_middle_east_news` (source lines 179-191), taking
the fetched raw items (title, description, source) as input: score, sort
descending by relevance, deduplicate by headline prefix, keep the top 5. -/
def fetch_middle_east_news (raw : List (String × String × String)) : List NewsItem :=
  let articles := raw.map (fun r => collectNewsItem r.1 r.2.1 r.2.2)
  (newsDedup (newsSorted articles) []).take 5

theorem newsDedup_sublist : ∀ (l : List NewsItem) (seen : List String),
    List.Sublist (newsDedup l seen) l := by
  intro l
  induction l with
  | nil => intro seen; simp [newsDedup]
  | cons a rest ih =>
    intro seen
    unfold newsDedup
    by_cases h : newsTitleKey a ∈ seen
    · simp only [if_pos h]
      exact (ih seen).trans (List.sublist_cons_self a rest)
    · simp only [if_neg h]
      exact (ih (newsTitleKey a :: seen)).cons₂ a

theorem newsDedup_spec : ∀ (l : List NewsItem) (seen : List String) (a : NewsItem),
    a ∈ newsDedup l seen →
    newsTitleKey a ∉ seen ∧
      ∃ pre post, l = pre ++ a :: post ∧ ∀ b ∈ pre, newsTitleKey b ≠ newsTitleKey a := by
  intro l
  induction l with
  | nil => intro seen a ha; simp [newsDedup] at ha
  | cons x rest ih =>
    intro seen a ha
    unfold newsDedup at ha
    by_cases h : newsTitleKey x ∈ seen
    · rw [if_pos h] at ha
      obtain ⟨hnot, pre, post, heq, hpre⟩ := ih seen a ha
      refine ⟨hnot, x :: pre, post, by rw [heq]; rfl, ?_⟩
      intro b hb
      rcases List.mem_cons.mp hb with rfl | hb'
      · intro hkey; exact hnot (hkey ▸ h)
      · exact hpre b hb'
    · rw [if_neg h] at ha
      rcases List.mem_cons.mp ha with rfl | ha'
      · exact ⟨h, [], rest, rfl, by intro b hb; cases hb⟩
      · obtain ⟨hnot, pre, post, heq, hpre⟩ := ih (newsTitleKey x :: seen) a ha'
        have hx : newsTitleKey a ≠ newsTitleKey x := by
          intro hkey; exact hnot (by rw [hkey]; exact List.mem_cons_self _ _)
        refine ⟨fun hs => hnot (List.mem_cons_of_mem _ hs), x :: pre, post,
          by rw [heq]; rfl, ?_⟩
        intro b hb
        rcases List.mem_cons.mp hb with rfl | hb'
        · exact fun hkey => hx hkey.symm
        · exact hpre b hb'

theorem newsDedup_nodup_keys : ∀ (l : List NewsItem) (seen : List String),
    ((newsDedup l seen).map newsTitleKey).Nodup := by
  intro l
  induction l with
  | nil => intro seen; simp [newsDedup]
  | cons x rest ih =>
    intro seen
    unfold newsDedup
    by_cases h : newsTitleKey x ∈ seen
    · rw [if_pos h]; exact ih seen
    · rw [if_neg h]
      simp only [List.map_cons, List.nodup_cons]
      refine ⟨?_, ih (newsTitleKey x :: seen)⟩
      intro hmem
      obtain ⟨b, hb, hkey⟩ := List.mem_map.mp hmem
      have := (newsDedup_spec rest (newsTitleKey x :: seen) b hb).1
      exact this (by rw [hkey]; exact List.mem_cons_self _ _)

/-- Claim C1: the news ranking step scores each candidate by the number of
priority keywords contained case-insensitively in headline plus description,
sorts descending by that score, deduplicates by the lowercased 50-character
headline prefix keeping the first-seen item of each prefix, and truncates to
at most 5 items; any item that is not the first of its prefix group in the
sorted order does not survive. -/
theorem claim_C1 (raw : List (String × String × String)) :
    (∀ a ∈ raw.map (fun r => collectNewsItem r.1 r.2.1 r.2.2),
        a.relevance = relevanceScore a.title a.description)
    ∧ (fetch_middle_east_news raw).length ≤ 5
    ∧ List.Pairwise (fun a b => b.relevance ≤ a.relevance) (fetch_middle_east_news raw)
    ∧ ((fetch_middle_east_news raw).map newsTitleKey).Nodup
    ∧ (∀ a ∈ fetch_middle_east_news raw,
        ∃ pre post,
          newsSorted (raw.map (fun r => collectNewsItem r.1 r.2.1 r.2.2)) = pre ++ a :: post
            ∧ ∀ b ∈ pre, newsTitleKey b ≠ newsTitleKey a) := by
  have hrel : IsTotal NewsItem (fun a b => b.relevance ≤ a.relevance) :=
    ⟨fun a b => Nat.le_total b.relevance a.relevance⟩
  have htrans : IsTrans NewsItem (fun a b => b.relevance ≤ a.relevance) :=
    ⟨fun _ _ _ h1 h2 => Nat.le_trans h2 h1⟩
  refine ⟨?_, ?_, ?_, ?_, ?_⟩
  · intro a ha
    obtain ⟨r, _, rfl⟩ := List.mem_map.mp ha
    rfl
  · exact List.length_take_le 5 _
  · have hsorted : List.Pairwise (fun a b => b.relevance ≤ a.relevance)
        (newsSorted (raw.map (fun r => collectNewsItem r.1 r.2.1 r.2.2))) :=
      List.sorted_insertionSort _ _
    have hsub : List.Sublist (fetch_middle_east_news raw)
        (newsSorted (raw.map (fun r => collectNewsItem r.1 r.2.1 r.2.2))) :=
      (List.take_sublist 5 _).trans (newsDedup_sublist _ [])
    exact hsorted.sublist hsub
  · have hnodup := newsDedup_nodup_keys
      (newsSorted (raw.map (fun r => collectNewsItem r.1 r.2.1 r.2.2))) []
    have hsub : List.Sublist ((fetch_middle_east_news raw).map newsTitleKey)
        ((newsDedup (newsSorted (raw.map (fun r => collectNewsItem r.1 r.2.1 r.2.2))) []).map
          newsTitleKey) :=
      (List.take_sublist 5 _).map newsTitleKey
    exact hnodup.sublist hsub
  · intro a ha
    have ha' : a ∈ newsDedup
        (newsSorted (raw.map (fun r => collectNewsItem r.1 r.2.1 r.2.2))) [] :=
      List.mem_of_mem_take ha
    obtain ⟨_, pre, post, heq, hpre⟩ := newsDedup_spec _ [] a ha'
    exact ⟨pre, post, heq, hpre⟩

/-- Witness for C1 at a concrete input: two items share a headline prefix and
only the first-seen (higher-scored) one survives. -/
theorem claim_C1_witness :
    (fetch_middle_east_news
        [("Markets calm", "quiet day", "AP"),
         ("Israel strike reported in Gaza overnight", "missile attack", "Reuters"),
         ("ISRAEL STRIKE reported in Gaza overnight", "other wording", "AP")]).length ≤ 5 :=
  (claim_C1
    [("Markets calm", "quiet day", "AP"),
     ("Israel strike reported in Gaza overnight", "missile attack", "Reuters"),
     ("ISRAEL STRIKE reported in Gaza overnight", "other wording", "AP")]).2.1

/- ### The briefing data model (the `briefing_data` dict built in `main`) -/

/-- The `current_weather` object of an Open-Meteo response, as accessed via
`.get` with defaults in the source. -/
structure CurrentWeather where
  temperature : Option ℚ
  windspeed : Option ℚ
  weathercode : Option ℤ
deriving DecidableEq

/-- The `daily` forecast object of an Open-Meteo response. -/
structure DailyForecast where
  temperature_2m_max : Option (List ℚ)
  temperature_2m_min : Option (List ℚ)
deriving DecidableEq

/-- One location entry of the weather dict (source `fetch_weather`). -/
structure LocationWeather where
  current_weather : Option CurrentWeather
  daily : Option DailyForecast
  location_name : Option String
deriving DecidableEq

/-- The weather dict with its two fixed locations (source lines 95-98). -/
structure WeatherData where
  doha : Option LocationWeather
  al_udeid : Option LocationWeather
deriving DecidableEq

/-- One per-symbol stock entry (source `fetch_stock_data`; on a fetch error
only `price`, `change_pct` and `error` are present). -/
structure StockQuote where
  price : Option ℚ
  change_pct : Option ℚ
  prev_close : Option ℚ
  prices_5d : Option (List ℚ)
  error : Option String
deriving DecidableEq

/-- One CoinGecko coin entry (source `fetch_crypto_data`). -/
structure CoinQuote where
  usd : Option ℚ
  usd_24h_change : Option ℚ
deriving DecidableEq

/-- The crypto dict with its two fixed coins. -/
structure CryptoData where
  bitcoin : Option CoinQuote
  ethereum : Option CoinQuote
deriving DecidableEq

/-- One portfolio stock position. -/
structure StockHolding where
  shares : Option ℚ
deriving DecidableEq

/-- One portfolio crypto position. -/
structure CryptoHolding where
  amount : Option ℚ
deriving DecidableEq

/-- The portfolio configuration file contents. -/
structure Portfolio where
  stocks : List (String × StockHolding)
  stocksCashUSD : Option ℚ
  crypto : List (String × CryptoHolding)
deriving DecidableEq

/-- The news dict (source lines 1177-1179). -/
structure NewsData where
  middle_east : List NewsItem
deriving DecidableEq

/-- The full `briefing_data` snapshot (source lines 1172-1181). -/
structure BriefingData where
  portfolio : Portfolio
  stocks : List (String × StockQuote)
  crypto : CryptoData
  weather : WeatherData
  news : NewsData
  generated : String
deriving DecidableEq

/-- The empty dict `\x7b\x7d` used as the default of `weather.get(loc, \x7b\x7d)`
and of nested `current_weather` access. -/
def emptyCW : CurrentWeather := ⟨none, none, none⟩

def emptyDaily : DailyForecast := ⟨none, none⟩

def emptyLoc : LocationWeather := ⟨none, none, none⟩

/-- The empty dict default of `stocks.get(sym, \x7b\x7d)`. -/
def emptyQuote : StockQuote := ⟨none, none, none, none, none⟩

/-- The empty dict default of `crypto.get("bitcoin", \x7b\x7d)`. -/
def emptyCoin : CoinQuote := ⟨none, none⟩

/- ### generate_news_script (source lines 194-246) -/

/-- The high-tension keyword list (source line 203). -/
def newsTensionKeywords : List String :=
  ["strike", "attack", "missile", "killed", "war", "escalat", "threat"]

/-- The high-tension check over the top three articles (source lines 204-207). -/
def newsHighTension (articles : List NewsItem) : Bool :=
  (articles.take 3).any (fun a => newsTensionKeywords.any (fun kw => pyIn kw (pyLower a.title)))

/-- Title clean-up for speech (source line 223): em dashes become hyphens and
quote characters are removed. -/
def pyCleanTitle (t : String) : String :=
  ⟨(t.data.map (fun c => if c = '—' then '-' else c)).filter
    (fun c => !(c == '"' || c == Char.ofNat 39))⟩

/-- The per-story sentences over the top three articles (source lines 217-230). -/
def newsStoryFrags (articles : List NewsItem) : List String :=
  match articles with
  | [] => []
  | a :: rest =>
    ("Top story: " ++ pyCleanTitle a.title ++ ". ")
      :: ((if 3 < a.relevance then ["This is a significant development. "] else [])
        ++ (rest.take 2).map (fun b => pyCleanTitle b.title ++ ". "))

/-- The lowercased concatenation of the top five headlines (source line 233). -/
def newsCombined (articles : List NewsItem) : String :=
  String.intercalate " " ((articles.take 5).map (fun a => pyLower a.title))

/-- The keyword-triggered context sentences (source lines 235-242), each
independently triggerable. -/
def newsContextFrags (articles : List NewsItem) : List String :=
  (if pyIn "gaza" (newsCombined articles) || pyIn "israel" (newsCombined articles) then
      ["The Gaza situation continues to dominate headlines. "] else [])
  ++ (if pyIn "iran" (newsCombined articles) then
      ["Iran-related tensions are in play. Keep an eye on that. "] else [])
  ++ (if pyIn "houthi" (newsCombined articles) || pyIn "red sea" (newsCombined articles) then
      ["Red Sea shipping disruptions ongoing. "] else [])
  ++ (if pyIn "saudi" (newsCombined articles) || pyIn "uae" (newsCombined articles) then
      ["Gulf states making moves. "] else [])

/-- The sentence fragments of the news script in emission order
(each Python `script +=` contributes one fragment). -/
def newsFrags (articles : List NewsItem) : List String :=
  (if newsHighTension articles then
      ["Alright, heads up — there\x27s significant tension in the region right now. "]
    else ["Here\x27s what\x27s happening in the Middle East. "])
  ++ newsStoryFrags articles
  ++ newsContextFrags articles
  ++ ["That\x27s your regional update. Stay safe out there."]

/-- `generate_news_script` (source lines 194-246): the quiet-day phrase on an
empty article list, otherwise the stripped concatenation of the fragments. -/
def generate_news_script (data : BriefingData) : String :=
  let articles := data.news.middle_east
  if articles.isEmpty then
    "Quiet day on the Middle East front. No major developments to report."
  else pyStrip (String.join (newsFrags articles))

/-- Claim C3: on an empty Middle East news set the news narration is exactly
the fixed quiet-day phrase (and, being a total function, never fails). -/
theorem claim_C3 (data : BriefingData) (h : data.news.middle_east = []) :
    generate_news_script data =
      "Quiet day on the Middle East front. No major developments to report." := by
  unfold generate_news_script
  rw [h]
  rfl

/-- A briefing snapshot in which every fetch degraded to its empty default. -/
def emptyBriefing : BriefingData :=
  { portfolio := { stocks := [], stocksCashUSD := none, crypto := [] }
    stocks := []
    crypto := { bitcoin := none, ethereum := none }
    weather := { doha := none, al_udeid := none }
    news := { middle_east := [] }
    generated := "2026-01-01T06:00:00" }

/-- Witness for C3: the quiet-day phrase on a concrete empty snapshot. -/
theorem claim_C3_witness :
    generate_news_script emptyBriefing =
      "Quiet day on the Middle East front. No major developments to report." :=
  claim_C3 emptyBriefing rfl

/- ### generate_summary_script (source lines 311-374) -/

/-- The movers list (source line 322): each held ticker with its percent
change, defaulting to 0 for a missing quote. -/
def summaryMovers (d : BriefingData) : List (String × ℚ) :=
  d.portfolio.stocks.map (fun p =>
    (p.1, (((List.lookup p.1 d.stocks).getD emptyQuote).change_pct).getD 0))

/-- The movers after the in-place ascending stable sort by change
(source line 323); `movers[0]` is the biggest loser and `movers[-1]` the
biggest winner (the winner is computed by the source but never used). -/
def summarySortedMovers (d : BriefingData) : List (String × ℚ) :=
  List.insertionSort (fun a b => a.2 ≤ b.2) (summaryMovers d)

/-- Bitcoin 24h change with the defaulted access of source line 328. -/
def summaryBtcChange (d : BriefingData) : ℚ :=
  ((d.crypto.bitcoin.getD emptyCoin).usd_24h_change).getD 0

def summaryDohaWeather (d : BriefingData) : LocationWeather :=
  d.weather.doha.getD emptyLoc

/-- Doha temperature with default 20 (source line 332). -/
def summaryDohaTemp (d : BriefingData) : ℚ :=
  (((summaryDohaWeather d).current_weather.getD emptyCW).temperature).getD 20

/-- The weekly-trend sentence (source lines 341-350), emitted only when the
daily forecast is truthy (present and non-empty). -/
def summaryWeeklyFrags (d : BriefingData) : List String :=
  let daily := (summaryDohaWeather d).daily.getD emptyDaily
  let tm := daily.temperature_2m_max.getD []
  if tm.isEmpty then []
  else
    let week_highs := tm.take 7
    let avg_high := if week_highs.isEmpty then summaryDohaTemp d
      else listSumQ week_highs / (week_highs.length : ℚ)
    if 30 < avg_high then ["Staying hot all week. "]
    else if 25 < avg_high then ["Nice weather ahead for the week. "]
    else ["Cooler week coming up. "]

/-- The crypto lead sentence (source lines 353-354). -/
def summaryBtcFrags (d : BriefingData) : List String :=
  if 5 < |summaryBtcChange d| then
    ["Crypto\x27s taking a hit — Bitcoin\x27s down about "
      ++ pyFmt0 |summaryBtcChange d| ++ " percent. "]
  else []

/-- The mean percent change across held stocks (source line 357). -/
def summaryAvgChange (d : BriefingData) : ℚ :=
  let movers := summarySortedMovers d
  if movers.isEmpty then 0
  else listSumQ (movers.map (fun m => m.2)) / (movers.length : ℚ)

/-- The day-classification sentences (source lines 358-365): red below -2,
green above +1, mixed otherwise; the red branch may also name the biggest
loser when its change is below -3. -/
def summaryDayFrags (d : BriefingData) : List String :=
  if summaryAvgChange d < -2 then
    "Red day in the markets. "
      :: (match (summarySortedMovers d).head? with
          | some bl => if bl.2 < -3 then [bl.1 ++ " is your biggest drag. "] else []
          | none => [])
  else if 1 < summaryAvgChange d then ["Green day for your portfolio. "]
  else ["Markets are mixed today. "]

/-- The Middle East news teaser (source lines 368-370). -/
def summaryNewsFrags (d : BriefingData) : List String :=
  match d.news.middle_east with
  | [] => []
  | a :: _ =>
    if 2 < a.relevance then ["There\x27s some significant Middle East news to cover. "]
    else []

/-- The sentence fragments of the summary script in emission order.  The
`date` argument models `datetime.now().strftime("%A, %B %d")` taken at call
time (source line 313). -/
def summaryFrags (date : String) (d : BriefingData) : List String :=
  ("Morning Bernhard. " ++ date ++ ". ")
    :: ("It\x27s " ++ pyFmt0 (summaryDohaTemp d) ++ " degrees in Doha right now. ")
    :: (summaryWeeklyFrags d ++ summaryBtcFrags d ++ summaryDayFrags d
        ++ summaryNewsFrags d ++ ["Check the sections for the full breakdown."])

/-- `generate_summary_script` (source lines 311-374). -/
def generate_summary_script (date : String) (d : BriefingData) : String :=
  pyStrip (String.join (summaryFrags date d))

theorem summaryFrags_split (date : String) (d : BriefingData) :
    summaryFrags date d =
      (("Morning Bernhard. " ++ date ++ ". ")
        :: ("It\x27s " ++ pyFmt0 (summaryDohaTemp d) ++ " degrees in Doha right now. ")
        :: (summaryWeeklyFrags d ++ summaryBtcFrags d ++ summaryDayFrags d
            ++ summaryNewsFrags d))
      ++ ["Check the sections for the full breakdown."] := by
  simp [summaryFrags, List.append_assoc]

/-- The final `.strip()` of the summary script is the identity: the script
starts and ends with non-whitespace text. -/
theorem summary_strip_id (date : String) (d : BriefingData) :
    generate_summary_script date d = String.join (summaryFrags date d) := by
  unfold generate_summary_script
  apply pyStrip_eq_self _ 'M' '.'
  · exact join_data_head? _ _ _ rfl
  · rfl
  · rw [summaryFrags_split]
    exact join_data_getLast? _ _ '.' rfl (by simp)
  · rfl

theorem listSumQ_eq_zero (l : List ℚ) (h : ∀ x ∈ l, x = 0) : listSumQ l = 0 := by
  unfold listSumQ
  suffices haux : ∀ acc : ℚ, l.foldl (· + ·) acc = acc by exact haux 0
  induction l with
  | nil => intro acc; rfl
  | cons x t ih =>
    intro acc
    have hx : x = 0 := h x (List.mem_cons_self _ _)
    have ht : ∀ y ∈ t, y = 0 := fun y hy => h y (List.mem_cons_of_mem _ hy)
    simp only [List.foldl_cons, hx, add_zero]
    exact ih ht acc

theorem summaryAvgChange_zero (d : BriefingData)
    (h : ∀ m ∈ summaryMovers d, m.2 = 0) : summaryAvgChange d = 0 := by
  unfold summaryAvgChange
  by_cases he : (summarySortedMovers d).isEmpty
  · simp [he]
  · simp only [he, if_false, Bool.false_eq_true]
    have hz : listSumQ ((summarySortedMovers d).map (fun m => m.2)) = 0 := by
      apply listSumQ_eq_zero
      intro x hx
      obtain ⟨m, hm, rfl⟩ := List.mem_map.mp hx
      exact h m ((List.mem_insertionSort _).mp hm)
    rw [hz, zero_div]

/-- Claim C2: the summary classifies the day from the mean percent change
across held stocks with strict thresholds (mean below -2 red, mean above +1
green, otherwise mixed), and an all-zero portfolio yields the mixed framing. -/
theorem claim_C2 (date : String) (d : BriefingData) :
    (∃ pre post, summaryFrags date d = pre ++ summaryDayFrags d ++ post)
    ∧ (summaryAvgChange d < -2 →
        ∃ t, summaryDayFrags d = "Red day in the markets. " :: t)
    ∧ (¬ summaryAvgChange d < -2 → 1 < summaryAvgChange d →
        summaryDayFrags d = ["Green day for your portfolio. "])
    ∧ (¬ summaryAvgChange d < -2 → ¬ 1 < summaryAvgChange d →
        summaryDayFrags d = ["Markets are mixed today. "])
    ∧ ((∀ m ∈ summaryMovers d, m.2 = 0) →
        SContains (generate_summary_script date d) "Markets are mixed today. ") := by
  refine ⟨?_, ?_, ?_, ?_, ?_⟩
  · exact ⟨("Morning Bernhard. " ++ date ++ ". ")
        :: ("It\x27s " ++ pyFmt0 (summaryDohaTemp d) ++ " degrees in Doha right now. ")
        :: (summaryWeeklyFrags d ++ summaryBtcFrags d),
      summaryNewsFrags d ++ ["Check the sections for the full breakdown."],
      by simp [summaryFrags, List.append_assoc]⟩
  · intro h
    exact ⟨(match (summarySortedMovers d).head? with
        | some bl => if bl.2 < -3 then [bl.1 ++ " is your biggest drag. "] else []
        | none => []),
      by unfold summaryDayFrags; rw [if_pos h]⟩
  · intro h1 h2
    unfold summaryDayFrags
    rw [if_neg h1, if_pos h2]
  · intro h1 h2
    unfold summaryDayFrags
    rw [if_neg h1, if_neg h2]
  · intro h
    have havg := summaryAvgChange_zero d h
    have hday : summaryDayFrags d = ["Markets are mixed today. "] := by
      unfold summaryDayFrags
      rw [havg]
      norm_num
    rw [summary_strip_id]
    apply scontains_join_of_mem _ (scontains_of_eq rfl)
    rw [summaryFrags_split, hday]
    simp

/-- A snapshot whose single holding sits at exactly 0 percent change. -/
def flatBriefing : BriefingData :=
  { portfolio := { stocks := [("VOO", ⟨some 10⟩)], stocksCashUSD := some 1000, crypto := [] }
    stocks := [("VOO", { price := some 500, change_pct := some 0, prev_close := some 500,
                         prices_5d := some [500], error := none })]
    crypto := { bitcoin := none, ethereum := none }
    weather := { doha := none, al_udeid := none }
    news := { middle_east := [] }
    generated := "2026-01-02T06:00:00" }

/-- Witness for C2: the concrete all-flat snapshot receives the mixed
framing. -/
theorem claim_C2_witness :
    SContains (generate_summary_script "Friday, January 02" flatBriefing)
      "Markets are mixed today. " :=
  (claim_C2 "Friday, January 02" flatBriefing).2.2.2.2 (by decide)

/- ### Claim C6: which holding the summary names -/

/-- A snapshot whose single (hence largest-magnitude) mover is a +10 percent
gainer. -/
def gainBriefing : BriefingData :=
  { portfolio := { stocks := [("NVDA", ⟨some 2⟩)], stocksCashUSD := some 500, crypto := [] }
    stocks := [("NVDA", { price := some 100, change_pct := some 10, prev_close := some 90,
                          prices_5d := none, error := none })]
    crypto := { bitcoin := none, ethereum := none }
    weather := { doha := none, al_udeid := none }
    news := { middle_east := [] }
    generated := "2026-03-02T06:00:00" }

/-- Counterexample to claim C6: the largest percentage-change holding of
`gainBriefing` is NVDA at +10 percent, yet the summary narration does not
name it anywhere — the source only ever names `movers[0]` inside the red-day
branch, and `biggest_winner` is computed but never used. -/
theorem claim_C6_counterexample :
    summaryMovers gainBriefing = [("NVDA", 10)]
      ∧ ¬ SContains (generate_summary_script "Monday, March 02" gainBriefing) "NVDA" := by
  constructor
  · decide
  · have h1 : summaryAvgChange gainBriefing = 10 := by
      norm_num [summaryAvgChange, summarySortedMovers, summaryMovers, gainBriefing,
        listSumQ, List.insertionSort, List.orderedInsert, List.lookup]
    have hday : summaryDayFrags gainBriefing = ["Green day for your portfolio. "] := by
      unfold summaryDayFrags
      rw [h1]
      norm_num
    have hb : summaryBtcFrags gainBriefing = [] := by
      unfold summaryBtcFrags
      norm_num [summaryBtcChange, gainBriefing, emptyCoin]
    have hfrags : summaryFrags "Monday, March 02" gainBriefing =
        ["Morning Bernhard. Monday, March 02. ",
         "It\x27s " ++ pyFmt0 (summaryDohaTemp gainBriefing) ++ " degrees in Doha right now. ",
         "Green day for your portfolio. ",
         "Check the sections for the full breakdown."] := by
      rw [summaryFrags]
      rw [hday, hb]
      rfl
    unfold generate_summary_script
    rw [hfrags]
    decide

/-- Claim C6 (amended): a holding is named in the summary only through the
red-day branch — when the mean change is below -2 and the first element of
the ascending-sorted movers (the minimum-change holding, i.e. the biggest
loser) has change below -3, that holding is named as the biggest drag; the
named holding is minimal among all movers, not maximal in magnitude. -/
theorem claim_C6_amended (date : String) (d : BriefingData) (sym : String) (ch : ℚ)
    (hhead : (summarySortedMovers d).head? = some (sym, ch))
    (havg : summaryAvgChange d < -2) (hch : ch < -3) :
    (∀ m ∈ summarySortedMovers d, ch ≤ m.2)
      ∧ SContains (generate_summary_script date d) (sym ++ " is your biggest drag. ") := by
  constructor
  · haveI : IsTotal (String × ℚ) (fun a b => a.2 ≤ b.2) := ⟨fun a b => le_total a.2 b.2⟩
    haveI : IsTrans (String × ℚ) (fun a b => a.2 ≤ b.2) :=
      ⟨fun _ _ _ h1 h2 => le_trans h1 h2⟩
    have hsorted : List.Pairwise (fun a b : String × ℚ => a.2 ≤ b.2)
        (summarySortedMovers d) := List.sorted_insertionSort _ _
    intro m hm
    cases hl : summarySortedMovers d with
    | nil => rw [hl] at hhead; simp at hhead
    | cons x t =>
      rw [hl] at hhead hm hsorted
      have hx : x = (sym, ch) := by simpa using hhead
      subst hx
      rcases List.mem_cons.mp hm with rfl | hm'
      · exact le_refl _
      · exact (List.pairwise_cons.mp hsorted).1 m hm'
  · have hday : summaryDayFrags d =
        ["Red day in the markets. ", sym ++ " is your biggest drag. "] := by
      unfold summaryDayFrags
      rw [if_pos havg, hhead]
      simp [hch]
    rw [summary_strip_id]
    apply scontains_join_of_mem _ (scontains_of_eq rfl)
    rw [summaryFrags_split, hday]
    simp

/-- A snapshot with a -8 percent loser and a -1 percent position: red day,
and the loser gets named. -/
def redBriefing : BriefingData :=
  { portfolio := { stocks := [("AAA", ⟨some 1⟩), ("BBB", ⟨some 1⟩)],
                   stocksCashUSD := none, crypto := [] }
    stocks := [("AAA", { price := some 10, change_pct := some (-8), prev_close := none,
                         prices_5d := none, error := none }),
               ("BBB", { price := some 10, change_pct := some (-1), prev_close := none,
                         prices_5d := none, error := none })]
    crypto := { bitcoin := none, ethereum := none }
    weather := { doha := none, al_udeid := none }
    news := { middle_east := [] }
    generated := "2026-03-03T06:00:00" }

/-- Witness for the amended C6 at a concrete red-day snapshot. -/
theorem claim_C6_amended_witness :
    SContains (generate_summary_script "Tuesday, March 03" redBriefing)
      ("AAA" ++ " is your biggest drag. ") :=
  (claim_C6_amended "Tuesday, March 03" redBriefing "AAA" (-8)
    (by decide)
    (by
      have hs : summarySortedMovers redBriefing = [("AAA", -8), ("BBB", -1)] := by decide
      unfold summaryAvgChange
      rw [hs]
      norm_num [listSumQ, List.foldl_cons, List.foldl_nil])
    (by norm_num)).2

/- ### generate_crypto_script (source lines 437-487) -/

def cryptoBtcChange (d : BriefingData) : ℚ :=
  ((d.crypto.bitcoin.getD emptyCoin).usd_24h_change).getD 0

def cryptoEthChange (d : BriefingData) : ℚ :=
  ((d.crypto.ethereum.getD emptyCoin).usd_24h_change).getD 0

def cryptoBtcPrice (d : BriefingData) : ℚ :=
  ((d.crypto.bitcoin.getD emptyCoin).usd).getD 0

/-- The Bitcoin band sentences (source lines 451-471): strictly below -5 the
significant-pullback boilerplate, then strictly below -2 the slight-pullback
pair, then strictly above +5 the rally pair, otherwise the quiet sentence. -/
def cryptoBandFrags (d : BriefingData) : List String :=
  if cryptoBtcChange d < -5 then
    ["We\x27re seeing a significant pullback. ",
     "This kind of drop is usually one of three things: ",
     "either macro fear pushing people to cash, ",
     "whales taking profits, ",
     "or some regulatory news spooking the market. ",
     "Nothing has fundamentally changed about Bitcoin though. "]
    ++ (if 60000 < cryptoBtcPrice d then
        ["We\x27re still well above sixty K, so this is normal volatility in the grand scheme. "]
      else [])
  else if cryptoBtcChange d < -2 then
    ["Slight pullback — nothing unusual. Crypto does this. ",
     "Could just be profit-taking after recent gains. "]
  else if 5 < cryptoBtcChange d then
    ["Nice rally happening. ",
     "Usually driven by institutional buying or positive sentiment around ETFs. "]
  else ["Pretty quiet in crypto land. Consolidation phase. "]

/-- The BTC/ETH correlation sentences (source lines 474-479).  Note the gap:
when the absolute difference is at least 2 but ETH sits within 3 points of
BTC, no sentence is emitted. -/
def cryptoCorrFrags (d : BriefingData) : List String :=
  if |cryptoBtcChange d - cryptoEthChange d| < 2 then
    ["ETH is moving in lockstep with Bitcoin, which is normal. "]
  else if cryptoEthChange d < cryptoBtcChange d - 3 then
    ["Ethereum\x27s underperforming Bitcoin today — sometimes means money rotating into BTC for safety. "]
  else if cryptoBtcChange d + 3 < cryptoEthChange d then
    ["Interesting — ETH is outperforming BTC. Could be Layer 2 hype or DeFi activity picking up. "]
  else []

/-- The sentiment sentence (source lines 482-483). -/
def cryptoSentimentFrags (d : BriefingData) : List String :=
  if cryptoBtcChange d < -5 then
    ["Sentiment is fearful right now, which historically has been a good time to accumulate if you\x27re long-term. "]
  else []

/-- The sentence fragments of the crypto script in emission order. -/
def cryptoFrags (d : BriefingData) : List String :=
  "Okay, crypto. "
    :: (cryptoBandFrags d ++ cryptoCorrFrags d ++ cryptoSentimentFrags d
      ++ ["You\x27re holding for the long run anyway, so don\x27t let the daily noise stress you out."])

/-- `generate_crypto_script` (source lines 437-487). -/
def generate_crypto_script (d : BriefingData) : String :=
  pyStrip (String.join (cryptoFrags d))

theorem cryptoFrags_split (d : BriefingData) :
    cryptoFrags d =
      ("Okay, crypto. " :: (cryptoBandFrags d ++ cryptoCorrFrags d ++ cryptoSentimentFrags d))
        ++ ["You\x27re holding for the long run anyway, so don\x27t let the daily noise stress you out."] := by
  simp [cryptoFrags, List.append_assoc]

theorem crypto_strip_id (d : BriefingData) :
    generate_crypto_script d = String.join (cryptoFrags d) := by
  unfold generate_crypto_script
  apply pyStrip_eq_self _ 'O' '.'
  · exact join_data_head? _ _ _ rfl
  · rfl
  · rw [cryptoFrags_split]
    exact join_data_getLast? _ _ '.' rfl (by simp)
  · rfl

/-- A snapshot where Bitcoin is down exactly 5.0 percent. -/
def btcDownFive : BriefingData :=
  { portfolio := { stocks := [], stocksCashUSD := none, crypto := [] }
    stocks := []
    crypto := { bitcoin := some { usd := some 50000, usd_24h_change := some (-5) },
                ethereum := none }
    weather := { doha := none, al_udeid := none }
    news := { middle_east := [] }
    generated := "2026-01-03T06:00:00" }

/-- Counterexample to claim C4: at a Bitcoin 24h change of exactly -5.0 the
strict comparison `btc_change < -5` fails, so the crypto narration emits the
milder slight-pullback band, not the significant-pullback band. -/
theorem claim_C4_counterexample :
    cryptoBtcChange btcDownFive = -5
      ∧ SContains (generate_crypto_script btcDownFive) "Slight pullback"
      ∧ ¬ SContains (generate_crypto_script btcDownFive)
          "We\x27re seeing a significant pullback." := by
  have hcorr : cryptoCorrFrags btcDownFive =
      ["Interesting — ETH is outperforming BTC. Could be Layer 2 hype or DeFi activity picking up. "] := by
    unfold cryptoCorrFrags
    norm_num [cryptoBtcChange, cryptoEthChange, btcDownFive, emptyCoin]
  have hfrags : cryptoFrags btcDownFive =
      ["Okay, crypto. ",
       "Slight pullback — nothing unusual. Crypto does this. ",
       "Could just be profit-taking after recent gains. ",
       "Interesting — ETH is outperforming BTC. Could be Layer 2 hype or DeFi activity picking up. ",
       "You\x27re holding for the long run anyway, so don\x27t let the daily noise stress you out."] := by
    rw [cryptoFrags, hcorr]
    rfl
  refine ⟨by decide, ?_, ?_⟩
  · unfold generate_crypto_script
    rw [hfrags]
    decide
  · unfold generate_crypto_script
    rw [hfrags]
    decide

/-- Claim C4 (amended): at a Bitcoin 24h change of exactly -5.0 the crypto
narration falls into the slight-pullback band; the significant-pullback band
requires a change strictly below -5. -/
theorem claim_C4_amended (d : BriefingData) (h : cryptoBtcChange d = -5) :
    cryptoBandFrags d =
        ["Slight pullback — nothing unusual. Crypto does this. ",
         "Could just be profit-taking after recent gains. "]
      ∧ SContains (generate_crypto_script d)
          "Slight pullback — nothing unusual. Crypto does this. " := by
  have hband : cryptoBandFrags d =
      ["Slight pullback — nothing unusual. Crypto does this. ",
       "Could just be profit-taking after recent gains. "] := by
    unfold cryptoBandFrags
    rw [h]
    norm_num
  refine ⟨hband, ?_⟩
  rw [crypto_strip_id]
  apply scontains_join_of_mem _ (scontains_of_eq rfl)
  rw [cryptoFrags_split, hband]
  simp

/-- Witness for the amended C4 at the concrete -5.0 snapshot. -/
theorem claim_C4_amended_witness :
    SContains (generate_crypto_script btcDownFive)
      "Slight pullback — nothing unusual. Crypto does this. " :=
  (claim_C4_amended btcDownFive (by decide)).2

/-- A snapshot in the correlation gap: BTC at 0, ETH at -2, so the absolute
difference is 2 (not within 2) yet ETH is within 3 points of BTC. -/
def btcEthGap : BriefingData :=
  { portfolio := { stocks := [], stocksCashUSD := none, crypto := [] }
    stocks := []
    crypto := { bitcoin := some { usd := some 60000, usd_24h_change := some 0 },
                ethereum := some { usd := some 2000, usd_24h_change := some (-2) } }
    weather := { doha := none, al_udeid := none }
    news := { middle_east := [] }
    generated := "2026-01-04T06:00:00" }

/-- Counterexample to claim C5: with BTC at 0 and ETH at -2 the absolute
difference is not within 2 points, yet the crypto narration emits neither the
under-performing nor the over-performing sentence — the correlation block is
empty. -/
theorem claim_C5_counterexample :
    ¬ |cryptoBtcChange btcEthGap - cryptoEthChange btcEthGap| < 2
      ∧ cryptoCorrFrags btcEthGap = []
      ∧ ¬ SContains (generate_crypto_script btcEthGap) "underperforming"
      ∧ ¬ SContains (generate_crypto_script btcEthGap) "outperforming" := by
  have hb : cryptoBtcChange btcEthGap = 0 := by decide
  have he : cryptoEthChange btcEthGap = -2 := by decide
  have habs : ¬ |cryptoBtcChange btcEthGap - cryptoEthChange btcEthGap| < 2 := by
    rw [hb, he]
    norm_num
  have hcorr : cryptoCorrFrags btcEthGap = [] := by
    unfold cryptoCorrFrags
    rw [hb, he]
    norm_num
  have hfrags : cryptoFrags btcEthGap =
      ["Okay, crypto. ",
       "Pretty quiet in crypto land. Consolidation phase. ",
       "You\x27re holding for the long run anyway, so don\x27t let the daily noise stress you out."] := by
    rw [cryptoFrags, hcorr]
    rfl
  refine ⟨habs, hcorr, ?_, ?_⟩
  · unfold generate_crypto_script
    rw [hfrags]
    decide
  · unfold generate_crypto_script
    rw [hfrags]
    decide

/-- Claim C5 (amended): within 2 points the lockstep sentence is emitted;
when ETH trails BTC by more than 3 points the under-performing sentence is
emitted; when ETH leads BTC by more than 3 points the over-performing
sentence is emitted; but in the gap (difference at least 2 and ETH within 3
points of BTC) no correlation sentence is emitted at all. -/
theorem claim_C5_amended (d : BriefingData) :
    (|cryptoBtcChange d - cryptoEthChange d| < 2 →
        cryptoCorrFrags d = ["ETH is moving in lockstep with Bitcoin, which is normal. "])
    ∧ (cryptoEthChange d < cryptoBtcChange d - 3 →
        cryptoCorrFrags d =
          ["Ethereum\x27s underperforming Bitcoin today — sometimes means money rotating into BTC for safety. "])
    ∧ (cryptoBtcChange d + 3 < cryptoEthChange d →
        cryptoCorrFrags d =
          ["Interesting — ETH is outperforming BTC. Could be Layer 2 hype or DeFi activity picking up. "])
    ∧ (¬ |cryptoBtcChange d - cryptoEthChange d| < 2 →
        cryptoBtcChange d - 3 ≤ cryptoEthChange d →
        cryptoEthChange d ≤ cryptoBtcChange d + 3 →
        cryptoCorrFrags d = [])
    ∧ (∃ pre post, cryptoFrags d = pre ++ cryptoCorrFrags d ++ post) := by
  refine ⟨?_, ?_, ?_, ?_, ?_⟩
  · intro h
    unfold cryptoCorrFrags
    rw [if_pos h]
  · intro h
    have habs : ¬ |cryptoBtcChange d - cryptoEthChange d| < 2 := by
      rw [abs_of_pos (by linarith)]
      linarith
    unfold cryptoCorrFrags
    rw [if_neg habs, if_pos h]
  · intro h
    have habs : ¬ |cryptoBtcChange d - cryptoEthChange d| < 2 := by
      rw [abs_of_neg (by linarith)]
      linarith
    have hunder : ¬ cryptoEthChange d < cryptoBtcChange d - 3 := by linarith
    unfold cryptoCorrFrags
    rw [if_neg habs, if_neg hunder, if_pos h]
  · intro h1 h2 h3
    unfold cryptoCorrFrags
    rw [if_neg h1, if_neg (by linarith : ¬ cryptoEthChange d < cryptoBtcChange d - 3),
      if_neg (by linarith : ¬ cryptoBtcChange d + 3 < cryptoEthChange d)]
  · exact ⟨"Okay, crypto. " :: cryptoBandFrags d,
      cryptoSentimentFrags d
        ++ ["You\x27re holding for the long run anyway, so don\x27t let the daily noise stress you out."],
      by simp [cryptoFrags, List.append_assoc]⟩

/-- Witness for the amended C5: the gap case at the concrete snapshot. -/
theorem claim_C5_amended_witness : cryptoCorrFrags btcEthGap = [] :=
  (claim_C5_amended btcEthGap).2.2.2.1
    (by have hb : cryptoBtcChange btcEthGap = 0 := by decide
        have he : cryptoEthChange btcEthGap = -2 := by decide
        rw [hb, he]; norm_num)
    (by have hb : cryptoBtcChange btcEthGap = 0 := by decide
        have he : cryptoEthChange btcEthGap = -2 := by decide
        rw [hb, he]; norm_num)
    (by have hb : cryptoBtcChange btcEthGap = 0 := by decide
        have he : cryptoEthChange btcEthGap = -2 := by decide
        rw [hb, he]; norm_num)

/- ### generate_weather_script (source lines 490-553) -/

def weatherDoha (d : BriefingData) : LocationWeather := d.weather.doha.getD emptyLoc

def weatherUdeid (d : BriefingData) : LocationWeather := d.weather.al_udeid.getD emptyLoc

def dohaCurrent (d : BriefingData) : CurrentWeather :=
  (weatherDoha d).current_weather.getD emptyCW

def udeidCurrent (d : BriefingData) : CurrentWeather :=
  (weatherUdeid d).current_weather.getD emptyCW

/-- Doha temperature, default 20 (source line 500). -/
def dohaTempW (d : BriefingData) : ℚ := (dohaCurrent d).temperature.getD 20

/-- Al Udeid temperature, defaulting to the Doha temperature (source line 501). -/
def udeidTempW (d : BriefingData) : ℚ := (udeidCurrent d).temperature.getD (dohaTempW d)

/-- Doha wind speed, default 0 (source line 502).  The source binds this
value but never uses it. -/
def dohaWindW (d : BriefingData) : ℚ := (dohaCurrent d).windspeed.getD 0

/-- Al Udeid wind speed, default 0 (source line 503). -/
def udeidWindW (d : BriefingData) : ℚ := (udeidCurrent d).windspeed.getD 0

/-- The temperature band sentence (source lines 510-517). -/
def weatherTempFrags (d : BriefingData) : List String :=
  if dohaTempW d < 22 then ["Nice and cool — enjoy it while it lasts. "]
  else if dohaTempW d < 30 then ["Comfortable temperature. "]
  else if dohaTempW d < 38 then ["Warm but manageable. "]
  else ["Hot one. Stay hydrated. "]

/-- The wind sentence, driven solely by the Al Udeid wind (source lines
522-527). -/
def weatherWindFrags (d : BriefingData) : List String :=
  if 25 < udeidWindW d then
    ["Watch the wind out there — " ++ pyFmt0 (udeidWindW d)
      ++ " K per hour. Could affect flight ops. "]
  else if 15 < udeidWindW d then ["Light winds at the base. "]
  else ["Calm conditions at the base. "]

/-- The weekly outlook sentences (source lines 530-549); the sliced lows of
line 533 are bound by the source but never used. -/
def weatherWeeklyFrags (d : BriefingData) : List String :=
  let daily := (weatherDoha d).daily.getD emptyDaily
  let tm := daily.temperature_2m_max.getD []
  if tm.isEmpty then []
  else
    let highs := tm.take 7
    let avg_high := if highs.isEmpty then dohaTempW d
      else listSumQ highs / (highs.length : ℚ)
    ("Looking at the week ahead: highs around " ++ pyFmt0 avg_high ++ " degrees. ")
      :: (if 3 ≤ highs.length then
          (let early_week := listSumQ (highs.take 3) / 3
           let late_week := if 3 < highs.length
             then listSumQ (highs.drop 3) / ((highs.drop 3).length : ℚ)
             else early_week
           if early_week + 3 < late_week then ["Warming up toward the weekend. "]
           else if late_week < early_week - 3 then ["Cooling down later in the week. "]
           else ["Pretty consistent all week. "])
        else [])

/-- The sentence fragments of the weather script in emission order. -/
def weatherFrags (d : BriefingData) : List String :=
  ("Doha right now: " ++ pyFmt0 (dohaTempW d) ++ " degrees. ")
    :: (weatherTempFrags d
      ++ (("Al Udeid is sitting at " ++ pyFmt0 (udeidTempW d) ++ " degrees. ")
          :: weatherWindFrags d)
      ++ weatherWeeklyFrags d
      ++ ["Safe travels if you\x27re heading to the base."])

/-- `generate_weather_script` (source lines 490-553). -/
def generate_weather_script (d : BriefingData) : String :=
  pyStrip (String.join (weatherFrags d))

theorem weatherFrags_split (d : BriefingData) :
    weatherFrags d =
      (("Doha right now: " ++ pyFmt0 (dohaTempW d) ++ " degrees. ")
        :: (weatherTempFrags d
          ++ (("Al Udeid is sitting at " ++ pyFmt0 (udeidTempW d) ++ " degrees. ")
              :: weatherWindFrags d)
          ++ weatherWeeklyFrags d))
      ++ ["Safe travels if you\x27re heading to the base."] := by
  simp [weatherFrags, List.append_assoc]

theorem weather_strip_id (d : BriefingData) :
    generate_weather_script d = String.join (weatherFrags d) := by
  unfold generate_weather_script
  apply pyStrip_eq_self _ 'D' '.'
  · exact join_data_head? _ _ _ rfl
  · rfl
  · rw [weatherFrags_split]
    exact join_data_getLast? _ _ '.' rfl (by simp)
  · rfl

/-- Claim C8: at Doha temperature 40 and Al Udeid wind 35 the weather script
contains both the hot-band advisory and the high-wind advisory. -/
theorem claim_C8 (d : BriefingData) (ht : dohaTempW d = 40) (hw : udeidWindW d = 35) :
    SContains (generate_weather_script d) "Hot one. Stay hydrated. "
      ∧ SContains (generate_weather_script d) "Watch the wind out there" := by
  have htemp : weatherTempFrags d = ["Hot one. Stay hydrated. "] := by
    unfold weatherTempFrags
    rw [ht]
    norm_num
  have hwind : weatherWindFrags d =
      ["Watch the wind out there — " ++ pyFmt0 (udeidWindW d)
        ++ " K per hour. Could affect flight ops. "] := by
    unfold weatherWindFrags
    rw [hw]
    norm_num
  constructor
  · rw [weather_strip_id]
    apply scontains_join_of_mem _ (scontains_of_eq rfl)
    rw [weatherFrags_split, htemp]
    simp
  · rw [weather_strip_id]
    apply scontains_join_of_mem (l := weatherFrags d)
      (s := "Watch the wind out there — " ++ pyFmt0 (udeidWindW d)
        ++ " K per hour. Could affect flight ops. ")
    · rw [weatherFrags_split, hwind]
      simp
    · exact scontains_append_of_left _ _
        (scontains_append_of_left _ _ (by decide))

/-- A snapshot with Doha at 40 degrees and Al Udeid wind at 35. -/
def hotWindyBriefing : BriefingData :=
  { portfolio := { stocks := [], stocksCashUSD := none, crypto := [] }
    stocks := []
    crypto := { bitcoin := none, ethereum := none }
    weather :=
      { doha := some
          { current_weather := some { temperature := some 40, windspeed := some 10,
                                      weathercode := some 0 }
            daily := none
            location_name := some "Doha" }
        al_udeid := some
          { current_weather := some { temperature := some 41, windspeed := some 35,
                                      weathercode := some 0 }
            daily := none
            location_name := some "Al Udeid Air Base" } }
    news := { middle_east := [] }
    generated := "2026-01-05T06:00:00" }

/-- Witness for C8 at the concrete hot and windy snapshot. -/
theorem claim_C8_witness :
    SContains (generate_weather_script hotWindyBriefing) "Hot one. Stay hydrated. "
      ∧ SContains (generate_weather_script hotWindyBriefing) "Watch the wind out there" :=
  claim_C8 hotWindyBriefing (by decide) (by decide)

/-- Replacing only the Doha `windspeed` entry of a snapshot
(`none` removes the key, `some w` sets it). -/
def setDohaWindspeed (d : BriefingData) (w : Option ℚ) : BriefingData :=
  { portfolio := d.portfolio
    stocks := d.stocks
    crypto := d.crypto
    weather :=
      { doha := Option.map (fun loc =>
          { current_weather := Option.map (fun cw =>
              { temperature := cw.temperature
                windspeed := w
                weathercode := cw.weathercode }) loc.current_weather
            daily := loc.daily
            location_name := loc.location_name }) d.weather.doha
        al_udeid := d.weather.al_udeid }
    news := d.news
    generated := d.generated }

theorem dohaDaily_setWind (d : BriefingData) (w : Option ℚ) :
    (weatherDoha (setDohaWindspeed d w)).daily = (weatherDoha d).daily := by
  unfold weatherDoha setDohaWindspeed
  cases hdo : d.weather.doha <;> simp

theorem dohaTempW_setWind (d : BriefingData) (w : Option ℚ) :
    dohaTempW (setDohaWindspeed d w) = dohaTempW d := by
  unfold dohaTempW dohaCurrent weatherDoha setDohaWindspeed
  cases hdo : d.weather.doha with
  | none => simp
  | some loc => cases hcw : loc.current_weather <;> simp [hcw]

theorem udeid_setWind (d : BriefingData) (w : Option ℚ) :
    weatherUdeid (setDohaWindspeed d w) = weatherUdeid d := rfl

/-- Claim C10: the weather narration never depends on the Doha wind speed —
replacing that value (or removing it) leaves the script unchanged; all wind
commentary is driven by the Al Udeid wind alone. -/
theorem claim_C10 (d : BriefingData) (w : Option ℚ) :
    generate_weather_script (setDohaWindspeed d w) = generate_weather_script d := by
  have ht1 : weatherTempFrags (setDohaWindspeed d w) = weatherTempFrags d := by
    unfold weatherTempFrags
    rw [dohaTempW_setWind]
  have hu1 : udeidTempW (setDohaWindspeed d w) = udeidTempW d := by
    unfold udeidTempW udeidCurrent
    rw [udeid_setWind, dohaTempW_setWind]
  have hw1 : weatherWindFrags (setDohaWindspeed d w) = weatherWindFrags d := by
    unfold weatherWindFrags udeidWindW udeidCurrent
    rw [udeid_setWind]
  have hwk : weatherWeeklyFrags (setDohaWindspeed d w) = weatherWeeklyFrags d := by
    unfold weatherWeeklyFrags
    rw [dohaDaily_setWind, dohaTempW_setWind]
  unfold generate_weather_script weatherFrags
  rw [dohaTempW_setWind, ht1, hu1, hw1, hwk]

/- ### generate_stocks_script (source lines 377-434) -/

/-- `stocks.get(sym, \x7b\x7d)` (defaulted dict access). -/
def stocksGet (d : BriefingData) (sym : String) : StockQuote :=
  (List.lookup sym d.stocks).getD emptyQuote

/-- `stocks.get(sym, \x7b\x7d).get("change_pct", 0)`. -/
def stocksChange (d : BriefingData) (sym : String) : ℚ :=
  (stocksGet d sym).change_pct.getD 0

/-- Python `sym in stocks`. -/
def stocksHas (d : BriefingData) (sym : String) : Bool :=
  (List.lookup sym d.stocks).isSome

/-- The movers list of the stocks script (source lines 383-389).  The source
builds and sorts it but never uses it afterwards; it is embedded for
completeness. -/
def stocksSortedMovers (d : BriefingData) : List (String × ℚ) :=
  List.insertionSort (fun a b => a.2 ≤ b.2)
    (d.portfolio.stocks.map (fun p => (p.1, stocksChange d p.1)))

/-- The fixed technology watch-list (source line 394). -/
def tech_stocks : List String := ["NVDA", "GOOGL", "META", "AAPL", "MSFT", "AMZN"]

/-- The changes of watch-list tickers present in the stocks dict
(source line 395). -/
def techChanges (d : BriefingData) : List ℚ :=
  (tech_stocks.filter (fun s => stocksHas d s)).map (fun s => stocksChange d s)

/-- The sector average (source line 396). -/
def avgTech (d : BriefingData) : ℚ :=
  if (techChanges d).isEmpty then 0
  else listSumQ (techChanges d) / ((techChanges d).length : ℚ)

/-- The sector commentary (source lines 398-402). -/
def stocksSectorFrags (d : BriefingData) : List String :=
  if avgTech d < -2 then
    ["Tech is getting hit across the board today. ",
     "This usually means either rate concerns, or investors rotating out of growth. "]
  else if 2 < avgTech d then
    ["Tech is leading the charge today — risk-on mode. "]
  else []

/-- The NVDA commentary (source lines 405-411). -/
def stocksNvdaFrags (d : BriefingData) : List String :=
  if stocksHas d "NVDA" then
    (if 2 < |stocksChange d "NVDA"| then
      (if stocksChange d "NVDA" < 0 then
        ["Nvidia\x27s down — probably AI sentiment cooling off, or chip sector rotation. Nothing fundamental changed. "]
      else ["Nvidia\x27s pushing higher — AI hype train keeps rolling. "])
    else [])
  else []

/-- The TSLA commentary (source lines 413-416). -/
def stocksTslaFrags (d : BriefingData) : List String :=
  if stocksHas d "TSLA" then
    (if 2 < |stocksChange d "TSLA"| then
      ["Tesla\x27s volatile as usual — you know how that goes. "]
    else [])
  else []

/-- The AMZN commentary (source lines 418-421). -/
def stocksAmznFrags (d : BriefingData) : List String :=
  if stocksHas d "AMZN" then
    (if stocksChange d "AMZN" < -3 then
      ["Amazon taking a hit — could be profit-taking or broader retail concerns. "]
    else [])
  else []

/-- The VOO broad-market commentary (source lines 424-429). -/
def stocksVooFrags (d : BriefingData) : List String :=
  if stocksHas d "VOO" then
    (if stocksChange d "VOO" < -1 then
      ["The broader market via VOO is down too, so this isn\x27t just your picks — it\x27s the whole market. "]
    else if 1 < stocksChange d "VOO" then
      ["The market overall is up, so rising tide lifting all boats. "]
    else [])
  else []

/-- The sentence fragments of the stocks script in emission order. -/
def stocksFrags (d : BriefingData) : List String :=
  "Alright, let\x27s talk about what\x27s actually happening with your stocks. "
    :: (stocksSectorFrags d ++ stocksNvdaFrags d ++ stocksTslaFrags d
      ++ stocksAmznFrags d ++ stocksVooFrags d
      ++ ["No major earnings or news moving your specific holdings that I can see. Mostly macro sentiment."])

/-- `generate_stocks_script` (source lines 377-434). -/
def generate_stocks_script (d : BriefingData) : String :=
  pyStrip (String.join (stocksFrags d))

/- ### Audio rendering (generate_voice / generate_all_voices, lines 249-308) -/

/-- The five briefing topics. -/
inductive Topic where
  | summary
  | stocks
  | crypto
  | news
  | weather
deriving DecidableEq

/-- The `VOICES` assignment (source lines 24-30). -/
def topicVoice : Topic → String
  | .summary => "bm_lewis"
  | .stocks => "am_michael"
  | .crypto => "af_nova"
  | .news => "bf_emma"
  | .weather => "am_adam"

/-- The audio artifact name of each topic (source lines 276-306). -/
def audioFileName : Topic → String
  | .summary => "audio_summary.wav"
  | .stocks => "audio_stocks.wav"
  | .crypto => "audio_crypto.wav"
  | .news => "audio_news.wav"
  | .weather => "audio_weather.wav"

/-- The narration text handed to the speech synthesiser for each topic. -/
def topicScript : Topic → String → BriefingData → String
  | .summary, date, d => generate_summary_script date d
  | .stocks, _, d => generate_stocks_script d
  | .crypto, _, d => generate_crypto_script d
  | .news, _, d => generate_news_script d
  | .weather, _, d => generate_weather_script d

/-- `generate_all_voices` (source lines 269-308).  The external `speak`
subprocess of `generate_voice` is modelled as an oracle
`tts : text → voice → output name → success`; a topic is recorded in the
returned `voice_files` dict exactly when its own synthesis call succeeds,
and a failure for one topic does not stop the remaining calls. -/
def generate_all_voices (date : String) (d : BriefingData)
    (tts : String → String → String → Bool) : List (Topic × String) :=
  (if tts (generate_summary_script date d) "bm_lewis" "audio_summary.wav"
    then [(Topic.summary, "audio_summary.wav")] else [])
  ++ (if tts (generate_stocks_script d) "am_michael" "audio_stocks.wav"
    then [(Topic.stocks, "audio_stocks.wav")] else [])
  ++ (if tts (generate_crypto_script d) "af_nova" "audio_crypto.wav"
    then [(Topic.crypto, "audio_crypto.wav")] else [])
  ++ (if tts (generate_news_script d) "bf_emma" "audio_news.wav"
    then [(Topic.news, "audio_news.wav")] else [])
  ++ (if tts (generate_weather_script d) "am_adam" "audio_weather.wav"
    then [(Topic.weather, "audio_weather.wav")] else [])

/- ### generate_html (source lines 556-1137) -/

/-- Model of the Python format `f"{x:,.0f}"`: round to the nearest integer
and insert thousands separators. -/
def commaRevAux : List Char → Nat → List Char
  | [], _ => []
  | c :: rest, k =>
    if k == 3 then ',' :: c :: commaRevAux rest 1
    else c :: commaRevAux rest (k + 1)

def commaGroup3 (s : String) : String := ⟨(commaRevAux s.data.reverse 0).reverse⟩

def pyFmtComma0 (q : ℚ) : String :=
  let n := Int.fdiv (2 * q.num + (q.den : ℤ)) (2 * (q.den : ℤ))
  (if n < 0 then "-" else "") ++ commaGroup3 (toString n.natAbs)

def padLeft0 (nd : Nat) (s : String) : String :=
  if s.length < nd then (⟨List.replicate (nd - s.length) '0'⟩ : String) ++ s else s

/-- Model of the Python format `f"{x:.nd f}"` with `nd` decimal places
(round half up; a negative zero loses its sign, which no claim depends on). -/
def pyFmtFixed (nd : Nat) (q : ℚ) : String :=
  let pn : Nat := 10 ^ nd
  let n := Int.fdiv (2 * q.num * (pn : ℤ) + (q.den : ℤ)) (2 * (q.den : ℤ))
  let a := n.natAbs
  (if n < 0 then "-" else "") ++ toString (a / pn) ++ "." ++ padLeft0 nd (toString (a % pn))

/-- `cash` (source line 572). -/
def htmlCash (d : BriefingData) : ℚ := d.portfolio.stocksCashUSD.getD 0

/-- `stock_total` (source lines 568-571). -/
def htmlStockTotal (d : BriefingData) : ℚ :=
  listSumQ (d.portfolio.stocks.map (fun p =>
    (stocksGet d p.1).price.getD 0 * p.2.shares.getD 0))

def htmlBtcPrice (d : BriefingData) : ℚ := ((d.crypto.bitcoin.getD emptyCoin).usd).getD 0

def htmlEthPrice (d : BriefingData) : ℚ := ((d.crypto.ethereum.getD emptyCoin).usd).getD 0

def htmlBtcHeld (d : BriefingData) : ℚ :=
  (((List.lookup "BTC" d.portfolio.crypto).getD ⟨none⟩).amount).getD 0

def htmlEthHeld (d : BriefingData) : ℚ :=
  (((List.lookup "ETH" d.portfolio.crypto).getD ⟨none⟩).amount).getD 0

def htmlCryptoTotal (d : BriefingData) : ℚ :=
  htmlBtcPrice d * htmlBtcHeld d + htmlEthPrice d * htmlEthHeld d

def htmlBtcChange (d : BriefingData) : ℚ :=
  ((d.crypto.bitcoin.getD emptyCoin).usd_24h_change).getD 0

def htmlEthChange (d : BriefingData) : ℚ :=
  ((d.crypto.ethereum.getD emptyCoin).usd_24h_change).getD 0

def htmlTemp (d : BriefingData) : ℚ :=
  (((d.weather.doha.getD emptyLoc).current_weather.getD emptyCW).temperature).getD 20

/-- The Doha wind (source line 607): bound by the source but never used in
the template. -/
def htmlWind (d : BriefingData) : ℚ :=
  (((d.weather.doha.getD emptyLoc).current_weather.getD emptyCW).windspeed).getD 0

def htmlWeatherCode (d : BriefingData) : ℤ :=
  (((d.weather.doha.getD emptyLoc).current_weather.getD emptyCW).weathercode).getD 0

def htmlUdeidTemp (d : BriefingData) : ℚ :=
  (((d.weather.al_udeid.getD emptyLoc).current_weather.getD emptyCW).temperature).getD
    (htmlTemp d)

def htmlUdeidWind (d : BriefingData) : ℚ :=
  (((d.weather.al_udeid.getD emptyLoc).current_weather.getD emptyCW).windspeed).getD 0

/-- `week_highs` (source line 615): empty when the daily dict is absent. -/
def htmlWeekHighs (d : BriefingData) : List ℚ :=
  match (d.weather.doha.getD emptyLoc).daily with
  | none => []
  | some dl => (dl.temperature_2m_max.getD []).take 7

def htmlWeekLows (d : BriefingData) : List ℚ :=
  match (d.weather.doha.getD emptyLoc).daily with
  | none => []
  | some dl => (dl.temperature_2m_min.getD []).take 7

/-- The weather code description table (source lines 619-623). -/
def weatherCodeDesc (code : ℤ) : String :=
  (List.lookup code
    [(0, "Clear sky"), (1, "Mainly clear"), (2, "Partly cloudy"), (3, "Overcast"),
     (45, "Foggy"), (48, "Depositing rime fog"), (51, "Light drizzle"),
     (61, "Slight rain"), (63, "Moderate rain"), (80, "Slight rain showers")]).getD
    "Unknown"

def htmlWeatherDesc (d : BriefingData) : String := weatherCodeDesc (htmlWeatherCode d)

/-- `weather_emoji` (source line 625): computed by the source but never used
in the template. -/
def htmlWeatherEmoji (d : BriefingData) : String :=
  if htmlWeatherCode d < 2 then "☀️" else if htmlWeatherCode d < 4 then "⛅" else "☁️"

/-- One stock row of the portfolio card (source lines 581-599). -/
def htmlStockRow (d : BriefingData) (p : String × StockHolding) : String :=
  let price := (stocksGet d p.1).price.getD 0
  let change := stocksChange d p.1
  let shares := p.2.shares.getD 0
  let value := price * shares
  let cls := if 0 ≤ change then "positive" else "negative"
  let sign := if 0 ≤ change then "+" else ""
  "\n            <div class=\"stock-row\">\n                <div><div class=\"stock-symbol\">"
     ++ p.1
     ++ "</div><div class=\"stock-shares\">"
     ++ pyFmtFixed 2 shares
     ++ " shares</div></div>\n                <div class=\"stock-value\">$"
     ++ pyFmtComma0 value
     ++ "</div>\n                <div class=\"stock-price\">$"
     ++ pyFmtFixed 2 price
     ++ "</div>\n                <div class=\"stock-change "
     ++ cls
     ++ "\">"
     ++ sign
     ++ pyFmtFixed 2 change
     ++ "%</div>\n            </div>\n        "

def htmlStockRows (d : BriefingData) : String :=
  String.join (d.portfolio.stocks.map (htmlStockRow d))

/-- One news bullet (source lines 637-640): title truncated to 80
characters. -/
def htmlNewsItem (a : NewsItem) : String :=
  "<div>• " ++ pySlice 80 a.title
    ++ " <span style=\"color: var(--text-muted);\">(" ++ a.source ++ ")</span></div>"

/-- The news card body (source lines 634-642), with the placeholder bullet
when no items accumulated. -/
def htmlNewsItems (d : BriefingData) : String :=
  let s := String.join ((d.news.middle_east.take 3).map htmlNewsItem)
  if s = "" then "<div>• No major news at this time</div>" else s

/-- The day labels (source line 645). -/
def htmlDays : List String := ["Today", "Tue", "Wed", "Thu", "Fri", "Sat", "Sun"]

/-- One forecast cell (source lines 647-655). -/
def htmlForecastCell (i : Nat) (hl : ℚ × ℚ) : String :=
  let day := htmlDays.getD i ("Day " ++ toString (i + 1))
  "\n            <div style=\"background: var(--bg-card-inner); padding: 8px 12px; border-radius: 8px; text-align: center;\">\n                <div style=\"font-size: 0.7rem; color: var(--text-muted);\">"
     ++ day
     ++ "</div>\n                <div style=\"font-size: 0.9rem; font-weight: 600; color: var(--text-primary);\">"
     ++ pyFmt0 hl.1
     ++ "°</div>\n                <div style=\"font-size: 0.75rem; color: var(--text-muted);\">"
     ++ pyFmt0 hl.2
     ++ "°</div>\n            </div>\n        "

def htmlWeekForecast (d : BriefingData) : String :=
  String.join
    ((((htmlWeekHighs d).take 7).zip ((htmlWeekLows d).take 7)).enum.map
      (fun p => htmlForecastCell p.1 p.2))

def htmlFrags (date_str time_str : String) (d : BriefingData) : List String :=
  ["<!DOCTYPE html>\n<html lang=\"en\">\n<head>\n    <meta charset=\"UTF-8\">\n    <meta name=\"viewport\" content=\"width=device-width, initial-scale=1.0\">\n    <title>Morning Briefing - ",
   date_str,
   "</title>\n    <link href=\"https://fonts.googleapis.com/css2?family=Inter:wght@400;600;700&display=swap\" rel=\"stylesheet\">\n    <style>\n        :root \x7b\n            --bg-main: #0d0d1a;\n            --bg-card: #1a1a2e;\n            --bg-card-inner: #252540;\n            --bg-expand: #1f1f38;\n            --border: rgba(255, 255, 255, 0.08);\n            --text-primary: #ffffff;\n            --text-secondary: rgba(255, 255, 255, 0.7);\n            --text-muted: rgba(255, 255, 255, 0.4);\n            --accent-green: #4ade80;\n            --accent-red: #f87171;\n            --accent-cyan: #22d3ee;\n            --accent-pink: #f472b6;\n            --accent-orange: #fb923c;\n            --accent-purple: #a29bfe;\n            --radius: 20px;\n            --radius-sm: 12px;\n        \x7d\n        * \x7b margin: 0; padding: 0; box-sizing: border-box; \x7d\n        body \x7b\n            font-family: \x27Inter\x27, -apple-system, BlinkMacSystemFont, sans-serif;\n            background: var(--bg-main);\n            color: var(--text-secondary);\n            padding: 40px 24px;\n            min-height: 100vh;\n        \x7d\n        .container \x7b max-width: 1100px; margin: 0 auto; \x7d\n        .header \x7b text-align: center; margin-bottom: 40px; \x7d\n        .header-emoji \x7b font-size: 3rem; margin-bottom: 16px; \x7d\n        .header h1 \x7b\n            font-size: 2.5rem;\n            font-weight: 700;\n            background: linear-gradient(135deg, #22d3ee, #a78bfa);\n            -webkit-background-clip: text;\n            -webkit-text-fill-color: transparent;\n            background-clip: text;\n        \x7d\n        .date \x7b color: var(--text-muted); margin-top: 8px; font-size: 0.9rem; \x7d\n        .greeting \x7b color: var(--text-secondary); margin-top: 8px; \x7d\n        \n        /* Audio player */\n        .main-audio \x7b\n            display: flex;\n            align-items: center;\n            justify-content: center;\n            gap: 12px;\n            margin: 20px 0;\n            padding: 16px;\n            background: var(--bg-card);\n            border-radius: var(--radius-sm);\n            border: 1px solid var(--border);\n        \x7d\n        .play-btn \x7b\n            background: linear-gradient(135deg, #22d3ee, #a78bfa);\n            border: none;\n            border-radius: 50%;\n            width: 48px;\n            height: 48px;\n            cursor: pointer;\n            display: flex;\n            align-items: center;\n            justify-content: center;\n            font-size: 1.2rem;\n            transition: transform 0.2s;\n        \x7d\n        .play-btn:hover \x7b transform: scale(1.1); \x7d\n        .audio-label \x7b color: var(--text-primary); font-weight: 600; \x7d\n        audio \x7b display: none; \x7d\n        \n        .dashboard \x7b display: grid; grid-template-columns: 1.4fr 1fr; gap: 20px; \x7d\n        .row-2 \x7b display: grid; grid-template-columns: 1fr 1fr; gap: 20px; margin-top: 20px; \x7d\n        \n        .card \x7b\n            background: var(--bg-card);\n            border: 1px solid var(--border);\n            border-radius: var(--radius);\n            padding: 24px;\n            position: relative;\n        \x7d\n        .card-header \x7b display: flex; align-items: center; gap: 12px; margin-bottom: 20px; \x7d\n        .card-icon \x7b\n            width: 40px; height: 40px;\n            border-radius: var(--radius-sm);\n            display: flex; align-items: center; justify-content: center;\n            font-size: 1.2rem;\n        \x7d\n        .card-icon.green \x7b background: rgba(74, 222, 128, 0.15); \x7d\n        .card-icon.cyan \x7b background: rgba(34, 211, 238, 0.15); \x7d\n        .card-icon.orange \x7b background: rgba(251, 146, 60, 0.15); \x7d\n        .card-icon.purple \x7b background: rgba(167, 139, 250, 0.15); \x7d\n        .card-title \x7b font-size: 1rem; font-weight: 600; color: var(--text-primary); \x7d\n        .card-subtitle \x7b font-size: 0.75rem; color: var(--text-muted); \x7d\n        \n        /* Expand button */\n        .expand-btn \x7b\n            position: absolute;\n            top: 16px;\n            right: 16px;\n            background: var(--bg-card-inner);\n            border: 1px solid var(--border);\n            border-radius: 8px;\n            padding: 6px 12px;\n            color: var(--text-secondary);\n            font-size: 0.75rem;\n            cursor: pointer;\n            display: flex;\n            align-items: center;\n            gap: 6px;\n            transition: all 0.2s;\n        \x7d\n        .expand-btn:hover \x7b\n            background: var(--accent-purple);\n            color: var(--text-primary);\n        \x7d\n        \n        /* Expansion panel */\n        .expand-panel \x7b\n            display: none;\n            margin-top: 20px;\n            padding: 20px;\n            background: var(--bg-expand);\n            border-radius: var(--radius-sm);\n            border: 1px solid var(--border);\n        \x7d\n        .expand-panel.active \x7b display: block; \x7d\n        .expand-panel .panel-audio \x7b\n            display: flex;\n            align-items: center;\n            gap: 10px;\n            margin-bottom: 16px;\n            padding-bottom: 16px;\n            border-bottom: 1px solid var(--border);\n        \x7d\n        .panel-play-btn \x7b\n            background: var(--accent-purple);\n            border: none;\n            border-radius: 50%;\n            width: 36px;\n            height: 36px;\n            cursor: pointer;\n            display: flex;\n            align-items: center;\n            justify-content: center;\n            font-size: 0.9rem;\n        \x7d\n        .panel-content \x7b font-size: 0.9rem; line-height: 1.6; \x7d\n        .panel-content h4 \x7b color: var(--text-primary); margin-bottom: 8px; \x7d\n        .panel-content p \x7b margin-bottom: 12px; \x7d\n        \n        .portfolio-total \x7b\n            font-size: 2.5rem;\n            font-weight: 700;\n            color: var(--text-primary);\n            margin-bottom: 8px;\n        \x7d\n        .portfolio-change \x7b font-size: 0.9rem; \x7d\n        .positive \x7b color: var(--accent-green); \x7d\n        .negative \x7b color: var(--accent-red); \x7d\n        \n        .stock-row \x7b\n            display: grid;\n            grid-template-columns: 100px 90px 80px 70px;\n            align-items: center;\n            padding: 12px 0;\n            border-bottom: 1px solid var(--border);\n        \x7d\n        .stock-row:last-child \x7b border-bottom: none; \x7d\n        .stock-symbol \x7b font-weight: 600; color: var(--text-primary); \x7d\n        .stock-shares \x7b font-size: 0.75rem; color: var(--text-muted); \x7d\n        .stock-value \x7b font-size: 0.85rem; color: var(--text-secondary); \x7d\n        .stock-price \x7b font-weight: 600; color: var(--text-primary); text-align: right; \x7d\n        .stock-change \x7b font-size: 0.8rem; font-weight: 600; text-align: right; \x7d\n        \n        .summary-grid \x7b display: grid; grid-template-columns: 1fr 1fr; gap: 12px; \x7d\n        .summary-item \x7b\n            background: var(--bg-card-inner);\n            border-radius: var(--radius-sm);\n            padding: 16px;\n            text-align: center;\n        \x7d\n        .summary-label \x7b font-size: 0.7rem; color: var(--text-muted); text-transform: uppercase; letter-spacing: 1px; \x7d\n        .summary-value \x7b font-size: 1.5rem; font-weight: 700; color: var(--text-primary); margin-top: 4px; \x7d\n        \n        .crypto-grid \x7b display: grid; grid-template-columns: 1fr 1fr; gap: 12px; \x7d\n        .crypto-item \x7b\n            background: var(--bg-card-inner);\n            border-radius: var(--radius-sm);\n            padding: 16px;\n        \x7d\n        .crypto-name \x7b font-size: 0.8rem; color: var(--text-muted); \x7d\n        .crypto-price \x7b font-size: 1.1rem; font-weight: 700; color: var(--text-primary); margin-top: 4px; \x7d\n        .crypto-change \x7b font-size: 0.8rem; font-weight: 600; \x7d\n        \n        .weather-main \x7b display: flex; align-items: center; gap: 16px; margin-bottom: 16px; \x7d\n        .weather-icon \x7b font-size: 3rem; \x7d\n        .weather-temp \x7b font-size: 2.5rem; font-weight: 700; color: var(--text-primary); \x7d\n        .weather-details \x7b display: flex; gap: 24px; \x7d\n        .weather-detail \x7b font-size: 0.85rem; \x7d\n        \n        .motivation-card \x7b grid-column: span 2; text-align: center; padding: 32px; \x7d\n        .motivation-quote \x7b\n            font-size: 1.3rem;\n            font-style: italic;\n            color: var(--text-primary);\n            line-height: 1.6;\n        \x7d\n        .motivation-author \x7b margin-top: 16px; color: var(--accent-purple); font-weight: 600; \x7d\n        \n        .footer \x7b text-align: center; padding: 40px 0 16px; \x7d\n        .footer-crab \x7b font-size: 2rem; \x7d\n        .footer-text \x7b font-size: 0.75rem; color: var(--text-muted); margin-top: 8px; \x7d\n        \n        @media (max-width: 900px) \x7b\n            .dashboard \x7b grid-template-columns: 1fr; \x7d\n            .row-2 \x7b grid-template-columns: 1fr; \x7d\n            .motivation-card \x7b grid-column: span 1; \x7d\n            .stock-row \x7b grid-template-columns: 80px 1fr 70px; \x7d\n            .stock-value \x7b display: none; \x7d\n        \x7d\n    </style>\n</head>\n<body>\n    <div class=\"container\">\n        <header class=\"header\">\n            <div class=\"header-emoji\">👋</div>\n            <h1>Morning Briefing</h1>\n            <p class=\"date\">",
   date_str,
   "</p>\n            <p class=\"greeting\">Good morning, Bernhard. Here\x27s your daily snapshot.</p>\n        </header>\n        \n        <!-- Main audio player -->\n        <div class=\"main-audio\">\n            <button class=\"play-btn\" onclick=\"toggleAudio(\x27main-audio-player\x27, this)\">▶️</button>\n            <span class=\"audio-label\">Play Full Briefing</span>\n            ",
   "<audio id=\"main-audio-player\" src=\"audio_summary.wav\"></audio>",
   "\n        </div>\n\n        <div class=\"dashboard\">\n            <!-- Portfolio Card -->\n            <div class=\"card\">\n                <button class=\"expand-btn\" onclick=\"togglePanel(\x27stocks-panel\x27, this)\">\n                    <span>More</span> ▼\n                </button>\n                <div class=\"card-header\">\n                    <div class=\"card-icon green\">📈</div>\n                    <div>\n                        <div class=\"card-title\">Portfolio</div>\n                        <div class=\"card-subtitle\">8 positions + cash</div>\n                    </div>\n                </div>\n                <div class=\"portfolio-total\">$",
   pyFmtComma0 (htmlStockTotal d + htmlCash d),
   "</div>\n                ",
   htmlStockRows d,
   "\n                \n                <div id=\"stocks-panel\" class=\"expand-panel\">\n                    <div class=\"panel-audio\">\n                        <button class=\"panel-play-btn\" onclick=\"toggleAudio(\x27stocks-audio\x27, this)\">▶️</button>\n                        <span>Listen to stock analysis</span>\n                        ",
   "<audio id=\"stocks-audio\" src=\"audio_stocks.wav\"></audio>",
   "\n                    </div>\n                    <div class=\"panel-content\">\n                        <h4>Detailed Analysis</h4>\n                        <p>Your portfolio breakdown with individual position values and daily performance metrics.</p>\n                        <p><strong>Cash position:</strong> $",
   pyFmtComma0 (htmlCash d),
   "</p>\n                        <p><strong>Total invested:</strong> $",
   pyFmtComma0 (htmlStockTotal d),
   "</p>\n                    </div>\n                </div>\n            </div>\n\n            <div>\n                <!-- Summary Card -->\n                <div class=\"card\">\n                    <div class=\"card-header\">\n                        <div class=\"card-icon cyan\">📊</div>\n                        <div>\n                            <div class=\"card-title\">Summary</div>\n                            <div class=\"card-subtitle\">Net worth breakdown</div>\n                        </div>\n                    </div>\n                    <div class=\"summary-grid\">\n                        <div class=\"summary-item\">\n                            <div class=\"summary-label\">Stocks</div>\n                            <div class=\"summary-value\">$",
   pyFmtFixed 1 (htmlStockTotal d / 1000),
   "K</div>\n                        </div>\n                        <div class=\"summary-item\">\n                            <div class=\"summary-label\">Cash</div>\n                            <div class=\"summary-value\">$",
   pyFmtFixed 1 (htmlCash d / 1000),
   "K</div>\n                        </div>\n                        <div class=\"summary-item\">\n                            <div class=\"summary-label\">Crypto</div>\n                            <div class=\"summary-value\">$",
   pyFmtFixed 1 (htmlCryptoTotal d / 1000),
   "K</div>\n                        </div>\n                        <div class=\"summary-item\">\n                            <div class=\"summary-label\">Total</div>\n                            <div class=\"summary-value\">$",
   pyFmt0 ((htmlStockTotal d + htmlCash d + htmlCryptoTotal d) / 1000),
   "K</div>\n                        </div>\n                    </div>\n                </div>\n\n                <!-- Crypto Card -->\n                <div class=\"card\" style=\"margin-top: 20px;\">\n                    <button class=\"expand-btn\" onclick=\"togglePanel(\x27crypto-panel\x27, this)\">\n                        <span>More</span> ▼\n                    </button>\n                    <div class=\"card-header\">\n                        <div class=\"card-icon orange\">🪙</div>\n                        <div>\n                            <div class=\"card-title\">Crypto</div>\n                            <div class=\"card-subtitle\">Main holdings</div>\n                        </div>\n                    </div>\n                    <div class=\"crypto-grid\">\n                        <div class=\"crypto-item\">\n                            <div class=\"crypto-name\">Bitcoin</div>\n                            <div class=\"crypto-price\">$",
   pyFmtComma0 (htmlBtcPrice d),
   "</div>\n                            <div class=\"crypto-change ",
   (if 0 ≤ htmlBtcChange d then "positive" else "negative"),
   "\">",
   (if 0 ≤ htmlBtcChange d then "+" else ""),
   pyFmtFixed 2 (htmlBtcChange d),
   "%</div>\n                        </div>\n                        <div class=\"crypto-item\">\n                            <div class=\"crypto-name\">Ethereum</div>\n                            <div class=\"crypto-price\">$",
   pyFmtComma0 (htmlEthPrice d),
   "</div>\n                            <div class=\"crypto-change ",
   (if 0 ≤ htmlEthChange d then "positive" else "negative"),
   "\">",
   (if 0 ≤ htmlEthChange d then "+" else ""),
   pyFmtFixed 2 (htmlEthChange d),
   "%</div>\n                        </div>\n                    </div>\n                    <div style=\"margin-top: 12px; font-size: 0.85rem; color: var(--text-muted);\">\n                        Your BTC: ",
   pyFmtFixed 3 (htmlBtcHeld d),
   " ($",
   pyFmtComma0 (htmlBtcPrice d * htmlBtcHeld d),
   ") · ETH: ",
   pyFmtFixed 2 (htmlEthHeld d),
   " ($",
   pyFmtComma0 (htmlEthPrice d * htmlEthHeld d),
   ")\n                    </div>\n                    \n                    <div id=\"crypto-panel\" class=\"expand-panel\">\n                        <div class=\"panel-audio\">\n                            <button class=\"panel-play-btn\" onclick=\"toggleAudio(\x27crypto-audio\x27, this)\">▶️</button>\n                            <span>Listen to crypto update</span>\n                            ",
   "<audio id=\"crypto-audio\" src=\"audio_crypto.wav\"></audio>",
   "\n                        </div>\n                        <div class=\"panel-content\">\n                            <h4>Crypto Deep Dive</h4>\n                            <p>24-hour price movements and your holdings breakdown.</p>\n                            <p><strong>Bitcoin:</strong> ",
   pyFmtFixed 2 (htmlBtcChange d),
   "% in 24h</p>\n                            <p><strong>Ethereum:</strong> ",
   pyFmtFixed 2 (htmlEthChange d),
   "% in 24h</p>\n                        </div>\n                    </div>\n                </div>\n            </div>\n        </div>\n\n        <div class=\"row-2\">\n            <!-- Weather Card -->\n            <div class=\"card\">\n                <button class=\"expand-btn\" onclick=\"togglePanel(\x27weather-panel\x27, this)\">\n                    <span>More</span> ▼\n                </button>\n                <div class=\"card-header\">\n                    <div class=\"card-icon cyan\">🌤️</div>\n                    <div>\n                        <div class=\"card-title\">Weather</div>\n                        <div class=\"card-subtitle\">Doha & Al Udeid</div>\n                    </div>\n                </div>\n                <div style=\"display: grid; grid-template-columns: 1fr 1fr; gap: 16px;\">\n                    <div>\n                        <div style=\"font-size: 0.75rem; color: var(--text-muted); margin-bottom: 4px;\">DOHA</div>\n                        <div style=\"font-size: 2rem; font-weight: 700; color: var(--text-primary);\">",
   pyFmt0 (htmlTemp d),
   "°C</div>\n                        <div style=\"font-size: 0.8rem; color: var(--text-secondary);\">",
   htmlWeatherDesc d,
   "</div>\n                    </div>\n                    <div>\n                        <div style=\"font-size: 0.75rem; color: var(--text-muted); margin-bottom: 4px;\">AL UDEID</div>\n                        <div style=\"font-size: 2rem; font-weight: 700; color: var(--text-primary);\">",
   pyFmt0 (htmlUdeidTemp d),
   "°C</div>\n                        <div style=\"font-size: 0.8rem; color: var(--text-secondary);\">💨 ",
   pyFmt0 (htmlUdeidWind d),
   " km/h</div>\n                    </div>\n                </div>\n                \n                <div id=\"weather-panel\" class=\"expand-panel\">\n                    <div class=\"panel-audio\">\n                        <button class=\"panel-play-btn\" onclick=\"toggleAudio(\x27weather-audio\x27, this)\">▶️</button>\n                        <span>Listen to full forecast</span>\n                        ",
   "<audio id=\"weather-audio\" src=\"audio_weather.wav\"></audio>",
   "\n                    </div>\n                    <div class=\"panel-content\">\n                        <h4>Week Ahead</h4>\n                        <div style=\"display: flex; gap: 8px; flex-wrap: wrap;\">\n                            ",
   htmlWeekForecast d,
   "\n                        </div>\n                    </div>\n                </div>\n            </div>\n\n            <!-- Middle East News Card -->\n            <div class=\"card\">\n                <button class=\"expand-btn\" onclick=\"togglePanel(\x27news-panel\x27, this)\">\n                    <span>More</span> ▼\n                </button>\n                <div class=\"card-header\">\n                    <div class=\"card-icon orange\">🌍</div>\n                    <div>\n                        <div class=\"card-title\">Middle East</div>\n                        <div class=\"card-subtitle\">Regional news</div>\n                    </div>\n                </div>\n                <div style=\"font-size: 0.9rem; line-height: 1.8;\">\n                    ",
   htmlNewsItems d,
   "\n                </div>\n                \n                <div id=\"news-panel\" class=\"expand-panel\">\n                    <div class=\"panel-audio\">\n                        <button class=\"panel-play-btn\" onclick=\"toggleAudio(\x27news-audio\x27, this)\">▶️</button>\n                        <span>Listen to news analysis</span>\n                        ",
   "<audio id=\"news-audio\" src=\"audio_news.wav\"></audio>",
   "\n                    </div>\n                    <div class=\"panel-content\">\n                        <h4>Regional Analysis</h4>\n                        <p>What\x27s happening in the Middle East and what it means.</p>\n                    </div>\n                </div>\n            </div>\n        </div>\n\n        <div class=\"row-2\">\n            <div class=\"card motivation-card\">\n                <div class=\"card-icon purple\" style=\"margin: 0 auto 16px;\">💡</div>\n                <div class=\"motivation-quote\">\n                    \"The stock market is a device for transferring money from the impatient to the patient.\"\n                </div>\n                <div class=\"motivation-author\">— Warren Buffett</div>\n            </div>\n        </div>\n\n        <footer class=\"footer\">\n            <div class=\"footer-crab\">🦀</div>\n            <p class=\"footer-text\">Generated by Clive · Last updated ",
   time_str,
   "</p>\n        </footer>\n    </div>\n    \n    <script>\n        function toggleAudio(audioId, btn) \x7b\n            const audio = document.getElementById(audioId);\n            if (audio.paused) \x7b\n                // Pause all other audio\n                document.querySelectorAll(\x27audio\x27).forEach(a => \x7b\n                    if (a.id !== audioId) \x7b\n                        a.pause();\n                        a.currentTime = 0;\n                    \x7d\n                \x7d);\n                document.querySelectorAll(\x27.play-btn, .panel-play-btn\x27).forEach(b => \x7b\n                    b.textContent = \x27▶️\x27;\n                \x7d);\n                audio.play();\n                btn.textContent = \x27⏸️\x27;\n            \x7d else \x7b\n                audio.pause();\n                btn.textContent = \x27▶️\x27;\n            \x7d\n            audio.onended = () => \x7b btn.textContent = \x27▶️\x27; \x7d;\n        \x7d\n        \n        function togglePanel(panelId, btn) \x7b\n            const panel = document.getElementById(panelId);\n            const isActive = panel.classList.contains(\x27active\x27);\n            \n            // Close all panels first\n            document.querySelectorAll(\x27.expand-panel\x27).forEach(p => p.classList.remove(\x27active\x27));\n            document.querySelectorAll(\x27.expand-btn\x27).forEach(b => \x7b\n                b.innerHTML = \x27<span>More</span> ▼\x27;\n            \x7d);\n            \n            if (!isActive) \x7b\n                panel.classList.add(\x27active\x27);\n                btn.innerHTML = \x27<span>Less</span> ▲\x27;\n            \x7d\n        \x7d\n    </script>\n</body>\n</html>"]

/-- `generate_html` (source lines 556-1137).  It receives the `voice_files`
dict but the template never reads it: every playback control is emitted
unconditionally. -/
def generate_html (date_str time_str : String) (d : BriefingData)
    (voice_files : List (Topic × String)) : String :=
  String.join (htmlFrags date_str time_str d)

/-- The five playback controls of the page, exactly as they appear in the
template. -/
def htmlAudioElement : Topic → String
  | .summary => "<audio id=\"main-audio-player\" src=\"audio_summary.wav\"></audio>"
  | .stocks => "<audio id=\"stocks-audio\" src=\"audio_stocks.wav\"></audio>"
  | .crypto => "<audio id=\"crypto-audio\" src=\"audio_crypto.wav\"></audio>"
  | .weather => "<audio id=\"weather-audio\" src=\"audio_weather.wav\"></audio>"
  | .news => "<audio id=\"news-audio\" src=\"audio_news.wav\"></audio>"

theorem htmlAudioElement_mem (ds ts : String) (d : BriefingData) (t : Topic) :
    htmlAudioElement t ∈ htmlFrags ds ts d := by
  have hlen : (htmlFrags ds ts d).length = 71 := rfl
  cases t with
  | summary =>
    have h : (htmlFrags ds ts d).get ⟨5, by rw [hlen]; decide⟩ = htmlAudioElement Topic.summary := rfl
    exact h ▸ List.get_mem _ _ _
  | stocks =>
    have h : (htmlFrags ds ts d).get ⟨11, by rw [hlen]; decide⟩ = htmlAudioElement Topic.stocks := rfl
    exact h ▸ List.get_mem _ _ _
  | crypto =>
    have h : (htmlFrags ds ts d).get ⟨47, by rw [hlen]; decide⟩ = htmlAudioElement Topic.crypto := rfl
    exact h ▸ List.get_mem _ _ _
  | weather =>
    have h : (htmlFrags ds ts d).get ⟨61, by rw [hlen]; decide⟩ = htmlAudioElement Topic.weather := rfl
    exact h ▸ List.get_mem _ _ _
  | news =>
    have h : (htmlFrags ds ts d).get ⟨67, by rw [hlen]; decide⟩ = htmlAudioElement Topic.news := rfl
    exact h ▸ List.get_mem _ _ _

/-- Counterexample to claim C9: when every synthesis call fails, no topic has
an audio artifact, yet the generated page still contains the stocks playback
control — `generate_html` ignores `voice_files`, so a missing artifact is
never omitted. -/
theorem claim_C9_counterexample :
    generate_all_voices "Monday" emptyBriefing (fun _ _ _ => false) = []
      ∧ (Topic.stocks, audioFileName Topic.stocks) ∉
          generate_all_voices "Monday" emptyBriefing (fun _ _ _ => false)
      ∧ SContains
          (generate_html "Monday" "06:00 AM" emptyBriefing
            (generate_all_voices "Monday" emptyBriefing (fun _ _ _ => false)))
          "<audio id=\"stocks-audio\" src=\"audio_stocks.wav\"></audio>" := by
  refine ⟨rfl, by simp [generate_all_voices], ?_⟩
  unfold generate_html
  exact scontains_join_of_mem (htmlAudioElement_mem _ _ _ Topic.stocks)
    (scontains_of_eq rfl)

/-- Claim C9 (amended): per-topic audio success is independent — a topic is
in `voice_files` exactly when its own synthesis call succeeded, regardless of
the other topics — and the HTML page renders for every `voice_files` value;
but the page does not omit the playback control of a topic whose artifact is
missing: the template ignores `voice_files` and always emits every control. -/
theorem claim_C9_amended (date ds ts : String) (d : BriefingData)
    (tts : String → String → String → Bool) (t : Topic)
    (vf vf' : List (Topic × String)) :
    ((t, audioFileName t) ∈ generate_all_voices date d tts ↔
      tts (topicScript t date d) (topicVoice t) (audioFileName t) = true)
    ∧ generate_html ds ts d vf = generate_html ds ts d vf'
    ∧ SContains (generate_html ds ts d vf) (htmlAudioElement t) := by
  refine ⟨?_, rfl, ?_⟩
  · cases t <;>
      simp only [generate_all_voices, topicScript, topicVoice, audioFileName,
        List.mem_append] <;>
      split_ifs <;> simp_all
  · unfold generate_html
    exact scontains_join_of_mem (htmlAudioElement_mem ds ts d t) (scontains_of_eq rfl)

/- ### JSON snapshot serialization (json.dump of briefing_data, line 1201,
and reloading it with json.load) -/

/-- A JSON value. -/
inductive Json where
  | null
  | bool (b : Bool)
  | num (q : ℚ)
  | str (s : String)
  | arr (l : List Json)
  | obj (l : List (String × Json))

/-- A key that is present only when the Python dict holds it. -/
def optField (name : String) : Option Json → List (String × Json)
  | some j => [(name, j)]
  | none => []

def jGet (name : String) (j : Json) : Option Json :=
  match j with
  | .obj l => l.lookup name
  | _ => none

def jNum : Json → Option ℚ
  | .num q => some q
  | _ => none

def jStr : Json → Option String
  | .str s => some s
  | _ => none

def jNumList : Json → List ℚ
  | .arr l => l.map (fun x => (jNum x).getD 0)
  | _ => []

def encCW (c : CurrentWeather) : Json :=
  .obj (optField "temperature" (c.temperature.map .num)
    ++ optField "windspeed" (c.windspeed.map .num)
    ++ optField "weathercode" (c.weathercode.map (fun z => .num (z : ℚ))))

def decCW (j : Json) : CurrentWeather :=
  { temperature := (jGet "temperature" j).bind jNum
    windspeed := (jGet "windspeed" j).bind jNum
    weathercode := ((jGet "weathercode" j).bind jNum).map (fun q => q.num) }

def encDaily (dl : DailyForecast) : Json :=
  .obj (optField "temperature_2m_max"
      (dl.temperature_2m_max.map (fun l => .arr (l.map .num)))
    ++ optField "temperature_2m_min"
      (dl.temperature_2m_min.map (fun l => .arr (l.map .num))))

def decDaily (j : Json) : DailyForecast :=
  { temperature_2m_max := (jGet "temperature_2m_max" j).map jNumList
    temperature_2m_min := (jGet "temperature_2m_min" j).map jNumList }

def encLoc (loc : LocationWeather) : Json :=
  .obj (optField "current_weather" (loc.current_weather.map encCW)
    ++ optField "daily" (loc.daily.map encDaily)
    ++ optField "location_name" (loc.location_name.map .str))

def decLoc (j : Json) : LocationWeather :=
  { current_weather := (jGet "current_weather" j).map decCW
    daily := (jGet "daily" j).map decDaily
    location_name := (jGet "location_name" j).bind jStr }

def encWeather (w : WeatherData) : Json :=
  .obj (optField "doha" (w.doha.map encLoc)
    ++ optField "al_udeid" (w.al_udeid.map encLoc))

def decWeather (j : Json) : WeatherData :=
  { doha := (jGet "doha" j).map decLoc
    al_udeid := (jGet "al_udeid" j).map decLoc }

def encQuote (q : StockQuote) : Json :=
  .obj (optField "price" (q.price.map .num)
    ++ optField "change_pct" (q.change_pct.map .num)
    ++ optField "prev_close" (q.prev_close.map .num)
    ++ optField "prices_5d" (q.prices_5d.map (fun l => .arr (l.map .num)))
    ++ optField "error" (q.error.map .str))

def decQuote (j : Json) : StockQuote :=
  { price := (jGet "price" j).bind jNum
    change_pct := (jGet "change_pct" j).bind jNum
    prev_close := (jGet "prev_close" j).bind jNum
    prices_5d := (jGet "prices_5d" j).map jNumList
    error := (jGet "error" j).bind jStr }

def encCoin (c : CoinQuote) : Json :=
  .obj (optField "usd" (c.usd.map .num)
    ++ optField "usd_24h_change" (c.usd_24h_change.map .num))

def decCoin (j : Json) : CoinQuote :=
  { usd := (jGet "usd" j).bind jNum
    usd_24h_change := (jGet "usd_24h_change" j).bind jNum }

def encCrypto (c : CryptoData) : Json :=
  .obj (optField "bitcoin" (c.bitcoin.map encCoin)
    ++ optField "ethereum" (c.ethereum.map encCoin))

def decCrypto (j : Json) : CryptoData :=
  { bitcoin := (jGet "bitcoin" j).map decCoin
    ethereum := (jGet "ethereum" j).map decCoin }

def encHolding (h : StockHolding) : Json := .obj (optField "shares" (h.shares.map .num))

def decHolding (j : Json) : StockHolding := { shares := (jGet "shares" j).bind jNum }

def encCryptoHolding (h : CryptoHolding) : Json :=
  .obj (optField "amount" (h.amount.map .num))

def decCryptoHolding (j : Json) : CryptoHolding := { amount := (jGet "amount" j).bind jNum }

def encPortfolio (p : Portfolio) : Json :=
  .obj (("stocks", Json.obj (p.stocks.map (fun q => (q.1, encHolding q.2))))
    :: (optField "stocksCashUSD" (p.stocksCashUSD.map .num)
      ++ [("crypto", Json.obj (p.crypto.map (fun q => (q.1, encCryptoHolding q.2))))]))

def decPortfolio (j : Json) : Portfolio :=
  { stocks := match jGet "stocks" j with
      | some (.obj l) => l.map (fun p => (p.1, decHolding p.2))
      | _ => []
    stocksCashUSD := (jGet "stocksCashUSD" j).bind jNum
    crypto := match jGet "crypto" j with
      | some (.obj l) => l.map (fun p => (p.1, decCryptoHolding p.2))
      | _ => [] }

def encNewsItem (a : NewsItem) : Json :=
  .obj [("title", .str a.title), ("description", .str a.description),
    ("source", .str a.source), ("relevance", .num (a.relevance : ℚ))]

def decNewsItem (j : Json) : NewsItem :=
  { title := ((jGet "title" j).bind jStr).getD ""
    description := ((jGet "description" j).bind jStr).getD ""
    source := ((jGet "source" j).bind jStr).getD ""
    relevance := (((jGet "relevance" j).bind jNum).getD 0).num.toNat }

def encNews (n : NewsData) : Json :=
  .obj [("middle_east", .arr (n.middle_east.map encNewsItem))]

def decNews (j : Json) : NewsData :=
  { middle_east := match jGet "middle_east" j with
      | some (.arr l) => l.map decNewsItem
      | _ => [] }

/-- Serializing the `briefing_data` snapshot (source lines 1199-1201). -/
def encodeBriefing (d : BriefingData) : Json :=
  .obj [("portfolio", encPortfolio d.portfolio), ("stocks",
      Json.obj (d.stocks.map (fun p => (p.1, encQuote p.2)))),
    ("crypto", encCrypto d.crypto), ("weather", encWeather d.weather),
    ("news", encNews d.news), ("generated", .str d.generated)]

/-- Reloading a serialized snapshot (missing or malformed parts degrade to
the same defaults the narration code would apply). -/
def decodeBriefing (j : Json) : BriefingData :=
  { portfolio := match jGet "portfolio" j with
      | some p => decPortfolio p
      | none => { stocks := [], stocksCashUSD := none, crypto := [] }
    stocks := match jGet "stocks" j with
      | some (.obj l) => l.map (fun p => (p.1, decQuote p.2))
      | _ => []
    crypto := match jGet "crypto" j with
      | some c => decCrypto c
      | none => { bitcoin := none, ethereum := none }
    weather := match jGet "weather" j with
      | some w => decWeather w
      | none => { doha := none, al_udeid := none }
    news := match jGet "news" j with
      | some n => decNews n
      | none => { middle_east := [] }
    generated := ((jGet "generated" j).bind jStr).getD "" }

theorem jNumList_roundtrip (l : List ℚ) : jNumList (.arr (l.map Json.num)) = l := by
  unfold jNumList
  induction l with
  | nil => rfl
  | cons x t ih => simp_all [jNum]

theorem decCW_encCW (c : CurrentWeather) : decCW (encCW c) = c := by
  obtain ⟨t, w, z⟩ := c
  cases t <;> cases w <;> cases z <;>
    simp [encCW, decCW, jGet, optField, List.lookup, jNum, Rat.num_intCast]

theorem decDaily_encDaily (dl : DailyForecast) : decDaily (encDaily dl) = dl := by
  obtain ⟨tm, tn⟩ := dl
  cases tm <;> cases tn <;>
    simp [encDaily, decDaily, jGet, optField, List.lookup, jNumList_roundtrip]

theorem decLoc_encLoc (loc : LocationWeather) : decLoc (encLoc loc) = loc := by
  obtain ⟨cw, dl, nm⟩ := loc
  cases cw <;> cases dl <;> cases nm <;>
    simp [encLoc, decLoc, jGet, optField, List.lookup, jStr,
      decCW_encCW, decDaily_encDaily]

theorem decWeather_encWeather (w : WeatherData) : decWeather (encWeather w) = w := by
  obtain ⟨dh, au⟩ := w
  cases dh <;> cases au <;>
    simp [encWeather, decWeather, jGet, optField, List.lookup, decLoc_encLoc]

theorem decQuote_encQuote (q : StockQuote) : decQuote (encQuote q) = q := by
  obtain ⟨p, c, pc, p5, e⟩ := q
  cases p <;> cases c <;> cases pc <;> cases p5 <;> cases e <;>
    simp [encQuote, decQuote, jGet, optField, List.lookup, jNum, jStr,
      jNumList_roundtrip]

theorem decCoin_encCoin (c : CoinQuote) : decCoin (encCoin c) = c := by
  obtain ⟨u, ch⟩ := c
  cases u <;> cases ch <;>
    simp [encCoin, decCoin, jGet, optField, List.lookup, jNum]

theorem decCrypto_encCrypto (c : CryptoData) : decCrypto (encCrypto c) = c := by
  obtain ⟨b, e⟩ := c
  cases b <;> cases e <;>
    simp [encCrypto, decCrypto, jGet, optField, List.lookup, decCoin_encCoin]

theorem dict_roundtrip {α : Type} (enc : α → Json) (dec : Json → α)
    (h : ∀ a, dec (enc a) = a) (l : List (String × α)) :
    (l.map (fun p => (p.1, enc p.2))).map (fun p => (p.1, dec p.2)) = l := by
  induction l with
  | nil => rfl
  | cons x t ih => simp [h, ih]

theorem decHolding_encHolding (h : StockHolding) : decHolding (encHolding h) = h := by
  obtain ⟨s⟩ := h
  cases s <;> simp [encHolding, decHolding, jGet, optField, List.lookup, jNum]

theorem decCryptoHolding_enc (h : CryptoHolding) :
    decCryptoHolding (encCryptoHolding h) = h := by
  obtain ⟨a⟩ := h
  cases a <;> simp [encCryptoHolding, decCryptoHolding, jGet, optField, List.lookup, jNum]

theorem decPortfolio_encPortfolio (p : Portfolio) : decPortfolio (encPortfolio p) = p := by
  obtain ⟨st, cash, cr⟩ := p
  cases cash <;>
    simp [encPortfolio, decPortfolio, jGet, optField, List.lookup, jNum,
      dict_roundtrip encHolding decHolding decHolding_encHolding,
      dict_roundtrip encCryptoHolding decCryptoHolding decCryptoHolding_enc]

theorem decNewsItem_encNewsItem (a : NewsItem) : decNewsItem (encNewsItem a) = a := by
  obtain ⟨t, de, so, r⟩ := a
  simp [encNewsItem, decNewsItem, jGet, List.lookup, jNum, jStr, Rat.num_natCast]

theorem decNews_encNews (n : NewsData) : decNews (encNews n) = n := by
  obtain ⟨l⟩ := n
  simp only [encNews, decNews, jGet, List.lookup]
  norm_num
  induction l with
  | nil => rfl
  | cons x t ih => simp [decNewsItem_encNewsItem, ih]

/-- One JSON round trip reproduces the snapshot exactly. -/
theorem decodeBriefing_encodeBriefing (d : BriefingData) :
    decodeBriefing (encodeBriefing d) = d := by
  obtain ⟨p, st, cr, w, n, g⟩ := d
  simp [encodeBriefing, decodeBriefing, jGet, List.lookup, jStr,
    decPortfolio_encPortfolio, decCrypto_encCrypto, decWeather_encWeather,
    decNews_encNews, dict_roundtrip encQuote decQuote decQuote_encQuote]

/-- Counterexample to claim C7: a JSON round trip reproduces the snapshot
exactly, yet summary narration is not a function of the snapshot alone — the
source reads `datetime.now()` (line 313), so re-running the summary at a
different date yields a different string on identical snapshot data. -/
theorem claim_C7_counterexample :
    decodeBriefing (encodeBriefing emptyBriefing) = emptyBriefing
      ∧ generate_summary_script "Monday, March 02" emptyBriefing ≠
          generate_summary_script "Tuesday, March 03" emptyBriefing := by
  refine ⟨decodeBriefing_encodeBriefing emptyBriefing, ?_⟩
  decide

/-- Claim C7 (amended): serializing a snapshot to JSON and reloading it
reproduces the snapshot exactly, and therefore every narration function
returns the identical string on the reloaded data — for the four clock-free
narrations unconditionally, and for the summary whenever it is re-run with
the same wall-clock date; the summary additionally depends on the current
date, so it is not a function of the snapshot alone. -/
theorem claim_C7_amended (date : String) (d : BriefingData) :
    decodeBriefing (encodeBriefing d) = d
    ∧ generate_summary_script date (decodeBriefing (encodeBriefing d)) =
        generate_summary_script date d
    ∧ generate_stocks_script (decodeBriefing (encodeBriefing d)) =
        generate_stocks_script d
    ∧ generate_crypto_script (decodeBriefing (encodeBriefing d)) =
        generate_crypto_script d
    ∧ generate_weather_script (decodeBriefing (encodeBriefing d)) =
        generate_weather_script d
    ∧ generate_news_script (decodeBriefing (encodeBriefing d)) =
        generate_news_script d := by
  have h := decodeBriefing_encodeBriefing d
  exact ⟨h, by rw [h], by rw [h], by rw [h], by rw [h], by rw [h]⟩
